import Mathlib

/-!
# Video-sharing backend: routes over a document store

A shallow embedding of the Express route handlers of the repository
(`routes/videos.js`, `routes/comments.js`, `routes/subscriptions.js`,
`routes/history.js`, `routes/users.js`), of the file filters of
`middleware/upload.js`, and of the Mongoose schemas they use (`models/*.js`).

Conventions of the embedding

* A collection is a list of documents in insertion order. `findOne` returns the
  first document matching the filter, `deleteOne` removes the first match,
  `save()` of a loaded document rewrites the first document with that `_id`,
  `save()` of a new document appends it.
* `save()` of a new `Like` runs the schema validation of the enum `type` and
  then the two unique sparse compound indexes of `models/Like.js`
  (`likeIndexConflict`): a rejected write is an exception, so the handler
  answers 500 and stores nothing. The inserts of `Subscription` and `History`
  follow a lookup on the very key of their one unique index, so in a store
  that satisfies the index they cannot collide. The constraints the indexes
  are meant to keep are also stated as predicates on the store
  (`UniqueVideoLikes`, `UniqueCommentLikes`, `UniqueLikeIds`, ...).
* An `ObjectId` is the 96-bit number it stands for. Its string form is 24
  lower-case hex digits; a string is cast to an `ObjectId` when it consists of
  24 hex digits of either case (the cast Mongoose applies to query values).
* A JavaScript number is an integer or `NaN`; the handlers embedded here only
  add, subtract and compare integers.
* Every handler is wrapped in `try { ... } catch { 500 }` in the source: an
  exception raised inside becomes the response `500 Server error` and the
  writes that had not been awaited yet are lost.
* The authenticated user (`req.user`, set by `middleware/auth`) is a parameter
  of the handlers that sit behind `auth`.
-/

namespace VideoBackend

/-! ## Strings -/

/-- Removes the first occurrence of `pat`: `s.replace(/pat/, '')` for a pattern
without regex operators. -/
def removeFirst (pat : List Char) : List Char → List Char
  | [] => []
  | c :: cs =>
    if pat.isPrefixOf (c :: cs) then (c :: cs).drop pat.length
    else c :: removeFirst pat cs

/-- Splits at every separator, as `s.split(sep)` does for a one-character
separator: the result is never empty. -/
def split (sep : Char) : List Char → List (List Char)
  | [] => [[]]
  | c :: cs =>
    if c = sep then [] :: split sep cs
    else
      match split sep cs with
      | [] => [[c]]
      | p :: ps => (c :: p) :: ps

/-- The characters `parseInt` skips at the front of its argument (ECMAScript
`StrWhiteSpaceChar`: white space and line terminators). -/
def isStrWhiteSpace (c : Char) : Bool :=
  let n := c.toNat
  n = 0x09 || n = 0x0A || n = 0x0B || n = 0x0C || n = 0x0D || n = 0x20 || n = 0xA0 ||
  n = 0x1680 || (0x2000 ≤ n && n ≤ 0x200A) || n = 0x2028 || n = 0x2029 || n = 0x202F ||
  n = 0x205F || n = 0x3000 || n = 0xFEFF

/-- Whether the character is one of `0` .. `9`. -/
def isDecDigit (c : Char) : Bool := 48 ≤ c.toNat && c.toNat ≤ 57

/-- The number written by a string of decimal digits, most significant first. -/
def digitsValue (acc : Nat) : List Char → Nat
  | [] => acc
  | c :: cs => digitsValue (10 * acc + (c.toNat - 48)) cs

/-- A JavaScript number as far as the handlers need it: an integer or `NaN`. -/
inductive Num where
  | nan
  | int (v : Int)
  deriving DecidableEq, Repr

/-- The digits of a natural number, as JavaScript prints an integer. -/
def natToString (n : Nat) : String := String.mk (Nat.toDigits 10 n)

/-- Number to string as in a template literal. -/
def Num.toString : Num → String
  | .nan => "NaN"
  | .int (.ofNat n) => natToString n
  | .int (.negSucc n) => "-" ++ natToString (n + 1)

/-- The function `parseInt(s, 10)`: skip leading white space, read an optional
sign, then the longest run of decimal digits; `NaN` when that run is empty. -/
def parseInt (s : List Char) : Num :=
  let s1 := s.dropWhile isStrWhiteSpace
  let neg := s1.head? = some '-'
  let s2 := if s1.head? = some '-' ∨ s1.head? = some '+' then s1.tail else s1
  let z := s2.takeWhile isDecDigit
  if z = [] then .nan
  else if neg then .int (-(digitsValue 0 z : Int)) else .int (digitsValue 0 z)

/-! ## Object ids -/

/-- A Mongo object id, as the 96-bit number it encodes. -/
abbrev ObjectId := Nat

/-- The value of a hex digit of either case. -/
def hexValue (c : Char) : Option Nat :=
  let n := c.toNat
  if 48 ≤ n ∧ n ≤ 57 then some (n - 48)
  else if 97 ≤ n ∧ n ≤ 102 then some (n - 87)
  else if 65 ≤ n ∧ n ≤ 70 then some (n - 55)
  else none

/-- Reads a string of hex digits, most significant first. -/
def hexParse (acc : Nat) : List Char → Option Nat
  | [] => some acc
  | c :: cs =>
    match hexValue c with
    | none => none
    | some d => hexParse (16 * acc + d) cs

/-- The cast Mongoose applies to a string used where an `ObjectId` is expected:
24 hex digits of either case, otherwise a `CastError`. -/
def castObjectId (s : String) : Option ObjectId :=
  if s.data.length = 24 then hexParse 0 s.data else none

/-- The lower-case hex digit of a value below 16. -/
def hexDigit (d : Nat) : Char :=
  if d < 10 then Char.ofNat (48 + d) else Char.ofNat (87 + d)

/-- The last `k` hex digits of `n`, most significant first. -/
def hexDigits : Nat → Nat → List Char
  | 0, _ => []
  | k + 1, n => hexDigits k (n / 16) ++ [hexDigit (n % 16)]

/-- The method `ObjectId.prototype.toString`: 24 lower-case hex digits. -/
def ObjectId.toString (o : ObjectId) : String := String.mk (hexDigits 24 o)

/-! ## Documents (`models/*.js`) -/

/-- A byte of a stored blob. -/
abbrev Byte := UInt8

/-- The enum of `likeSchema.type`. -/
inductive LikeType where
  | like
  | dislike
  deriving DecidableEq, Repr

/-- The string stored for a reaction kind. -/
def LikeType.toString : LikeType → String
  | .like => "like"
  | .dislike => "dislike"

/-- Schema validation of `type` on save: a value outside the enum is rejected. -/
def LikeType.ofString (s : String) : Option LikeType :=
  if s = "like" then some .like else if s = "dislike" then some .dislike else none

/-- A document of `models/Like.js`: `video` and `comment` are optional. -/
structure Like where
  _id : ObjectId
  user : ObjectId
  video : Option ObjectId
  comment : Option ObjectId
  type : LikeType
  deriving DecidableEq, Repr

/-- A document of `models/Video.js`; the counters are JavaScript numbers. -/
structure Video where
  _id : ObjectId
  title : String
  description : String
  fileName : String
  thumbnail : String
  duration : Int
  views : Int
  likes : Int
  dislikes : Int
  category : String
  creator : ObjectId
  isPrivate : Bool
  createdAt : Nat
  deriving DecidableEq, Repr

/-- Modelled from the spec: `models/Comment.js` is not among the sources; the
fields are those the spec lists (video, author, text, like count, edited flag)
under the names `routes/comments.js` and `routes/videos.js` use. -/
structure Comment where
  _id : ObjectId
  video : ObjectId
  user : ObjectId
  content : String
  likes : Int
  edited : Bool
  createdAt : Nat
  deriving DecidableEq, Repr

/-- Modelled from the spec: `models/User.js` is not among the sources; the
fields are those the spec lists (username, avatar, bio, subscriber count) under
the names the routes use. -/
structure User where
  _id : ObjectId
  username : String
  avatar : String
  bio : String
  subscribersCount : Int
  deriving DecidableEq, Repr

/-- A document of `models/Subscription.js`. -/
structure Subscription where
  _id : ObjectId
  subscriber : ObjectId
  creator : ObjectId
  deriving DecidableEq, Repr

/-- A document of `models/History.js`. -/
structure History where
  _id : ObjectId
  user : ObjectId
  video : ObjectId
  watchedAt : Nat
  deriving DecidableEq, Repr

/-- The document store together with the directory `uploads/videos`. -/
structure Store where
  users : List User
  videos : List Video
  comments : List Comment
  likes : List Like
  subscriptions : List Subscription
  histories : List History
  videoFiles : List (String × List Byte)
  deriving DecidableEq

/-! ## Collection operations -/

/-- The query `Model.deleteOne(filter)`: removes the first matching document. -/
def deleteOne {α : Type} (p : α → Bool) : List α → List α
  | [] => []
  | a :: as => if p a then as else a :: deleteOne p as

/-- The query `Model.updateOne(filter, update)`: rewrites the first matching
document. -/
def updateOne {α : Type} (p : α → Bool) (f : α → α) : List α → List α
  | [] => []
  | a :: as => if p a then f a :: as else a :: updateOne p f as

/-- The query `Video.findById(id)` for a string id: `none` is a `CastError`. -/
def Store.findVideoById (st : Store) (id : String) : Option (Option Video) :=
  (castObjectId id).map fun oid => st.videos.find? fun v => v._id == oid

/-- The query `Comment.findById(id)` for a string id. -/
def Store.findCommentById (st : Store) (id : String) : Option (Option Comment) :=
  (castObjectId id).map fun oid => st.comments.find? fun c => c._id == oid

/-- The query `User.findById(id)` for a string id. -/
def Store.findUserById (st : Store) (id : String) : Option (Option User) :=
  (castObjectId id).map fun oid => st.users.find? fun u => u._id == oid

/-- The call `stat(path.join(.., 'uploads/videos', fileName))`, with the bytes
a read stream on that path delivers; `none` when the file does not exist. -/
def Store.statVideoFile (st : Store) (fileName : String) : Option (List Byte) :=
  (st.videoFiles.find? fun f => f.1 == fileName).map Prod.snd

/-! ## Responses -/

/-- What a handler sends as the body. -/
inductive Body where
  | message (text : String)
  | stream (bytes : List Byte)
  | counters (likes dislikes : Int) (status : Option String)
  | commentLikes (likes : Int)
  | subscribed (text : String) (subscription : Subscription)
  | history (entry : History)
  | video (video : Video) (isLiked isDisliked : Option Bool)
  | videos (list : List Video)
  deriving DecidableEq

/-- An HTTP response: status line, the headers the handler sets, body. -/
structure Response where
  status : Nat
  headers : List (String × String)
  body : Body
  deriving DecidableEq

/-- The call `res.status(code).json({ message })`. -/
def jsonMessage (code : Nat) (text : String) : Response :=
  { status := code, headers := [], body := .message text }

/-- The response of every `catch` block. -/
def serverError : Response := jsonMessage 500 "Server error"

/-! ## `GET /:id/stream` (`routes/videos.js`) -/

/-- The constant `Number.MAX_SAFE_INTEGER`. -/
def maxSafeInteger : Int := 2 ^ 53 - 1

/-- The check `validateInteger(value, name, 0)` of Node's `fs` streams. -/
def validStreamOffset : Num → Option Nat
  | .nan => none
  | .int v => if 0 ≤ v ∧ v ≤ maxSafeInteger then some v.toNat else none

/-- The call `fs.createReadStream(path, { start, end })` on a file with the
given bytes: Node rejects an offset that is not an integer in
`0 .. MAX_SAFE_INTEGER` and a `start` above `end` (`ERR_OUT_OF_RANGE`, thrown
synchronously); otherwise the stream delivers the bytes at positions
`start .. end`, both inclusive, ending early at the end of the file. -/
def createReadStream (file : List Byte) (start stop : Num) : Option (List Byte) :=
  match validStreamOffset start, validStreamOffset stop with
  | some s, some e => if s ≤ e then some ((file.drop s).take (e - s + 1)) else none
  | _, _ => none

/-- Subtraction and addition of JavaScript numbers: `(end - start) + 1`. -/
def chunkSizeOf : Num → Num → Num
  | .int e, .int s => .int (e - s + 1)
  | _, _ => .nan

/-- The two numbers the handler reads out of a `Range` header value:
`parts = range.replace(/bytes=/, '').split('-')`, `start = parseInt(parts[0], 10)`,
`end = parts[1] ? parseInt(parts[1], 10) : size - 1`. -/
def parseRange (range : String) (size : Nat) : Num × Num :=
  let parts := split '-' (removeFirst "bytes=".data range.data)
  let start := parseInt (parts.headD [])
  let stop :=
    match parts.tail.head? with
    | some (c :: cs) => parseInt (c :: cs)
    | _ => .int ((size : Int) - 1)
  (start, stop)

/-- The handler of `GET /:id/stream`. `range` is `req.headers.range`. -/
def streamVideo (st : Store) (id : String) (range : Option String) : Response :=
  match st.findVideoById id with
  | none => serverError
  | some none => jsonMessage 404 "Video not found"
  | some (some video) =>
    match st.statVideoFile video.fileName with
    | none => jsonMessage 404 "Video file not found"
    | some file =>
      let size := file.length
      match range with
      | some r =>
        if r = "" then
          { status := 200
            headers := [("Content-Length", natToString size), ("Content-Type", "video/mp4")]
            body := .stream file }
        else
          let (start, stop) := parseRange r size
          let chunkSize := chunkSizeOf stop start
          match createReadStream file start stop with
          | none => serverError
          | some bytes =>
            { status := 206
              headers :=
                [("Content-Range",
                    "bytes " ++ start.toString ++ "-" ++ stop.toString ++ "/" ++ natToString size),
                 ("Accept-Ranges", "bytes"),
                 ("Content-Length", chunkSize.toString),
                 ("Content-Type", "video/mp4")]
              body := .stream bytes }
      | none =>
        { status := 200
          headers := [("Content-Length", natToString size), ("Content-Type", "video/mp4")]
          body := .stream file }

/-- The header value `bytes=<start>-<end>`, or `bytes=<start>-` when no end is
given, with the numbers in decimal. -/
def rangeHeader (start : Nat) (stop : Option Nat) : String :=
  "bytes=" ++ natToString start ++ "-" ++
    (match stop with
     | some e => natToString e
     | none => "")

/-- The malformed ranges: with `start` and `end` the numbers the handler reads
from the header, `start` is not a number, or `start > end`, or `start` is at
or past the file size. -/
def rangeMalformed (r : String) (size : Nat) : Bool :=
  match parseRange r size with
  | (.nan, _) => true
  | (.int s, .int e) => decide (e < s) || decide ((size : Int) ≤ s)
  | (.int s, .nan) => decide ((size : Int) ≤ s)

/-! ## `POST /:id/like` (`routes/videos.js`) -/

/-- The expression `Math.max(0, n - 1)`. -/
def decFloor (n : Int) : Int := max 0 (n - 1)

/-- The query `Like.findOne({ user, video })`. -/
def Store.findVideoLike (st : Store) (user video : ObjectId) : Option Like :=
  st.likes.find? fun l => l.user == user && l.video == some video

/-- The query `Like.findOne({ user, comment })`. -/
def Store.findCommentLike (st : Store) (user comment : ObjectId) : Option Like :=
  st.likes.find? fun l => l.user == user && l.comment == some comment

/-- The value of `status` as a condition: `null`, `undefined` and the empty
string are falsy. `req.body.status` is taken to be absent, `null` or a string. -/
def truthy : Option String → Option String
  | some s => if s = "" then none else some s
  | none => none

/-- The indexes `{ user: 1, video: 1 }` and `{ user: 1, comment: 1 }` of
`models/Like.js`, both `unique` and `sparse`. A sparse compound index holds
every document that has at least one of its keys, and every `Like` has `user`;
a field the document lacks is keyed as null. So the insert of `newLike` is
rejected (duplicate key) when a stored reaction of the same user has the same
`video`, present or not, or the same `comment`, present or not. -/
def likeIndexConflict (likes : List Like) (newLike : Like) : Bool :=
  likes.any fun l =>
    l.user == newLike.user && (l.video == newLike.video || l.comment == newLike.comment)

/-- The call `video.save()` after the handler assigned `likes` and `dislikes`,
followed by `res.json({ likes, dislikes, status: status || null })`. -/
def saveVideoCounters (st : Store) (video : Video) (status : Option String) :
    Response × Store :=
  ({ status := 200, headers := [], body := .counters video.likes video.dislikes status },
   { st with
     videos := updateOne (fun w => w._id == video._id)
       (fun w => { w with likes := video.likes, dislikes := video.dislikes }) st.videos })

/-- The handler of `POST /:id/like` on the videos router, behind `auth`:
`user` is `req.user._id`, `status` is `req.body.status`, `newId` is the id the
driver gives a document created by `new Like(..)`. -/
def likeVideo (st : Store) (user : ObjectId) (id : String) (status : Option String)
    (newId : ObjectId) : Response × Store :=
  match st.findVideoById id with
  | none => (serverError, st)
  | some none => (jsonMessage 404 "Video not found", st)
  | some (some video) =>
    match st.findVideoLike user video._id with
    | some existingLike =>
      match truthy status with
      | none =>
        let video1 :=
          match existingLike.type with
          | .like => { video with likes := decFloor video.likes }
          | .dislike => { video with dislikes := decFloor video.dislikes }
        let st1 := { st with likes := deleteOne (fun l => l._id == existingLike._id) st.likes }
        saveVideoCounters st1 video1 none
      | some s =>
        if s ≠ existingLike.type.toString then
          let video1 :=
            match existingLike.type with
            | .like => { video with likes := decFloor video.likes, dislikes := video.dislikes + 1 }
            | .dislike =>
              { video with dislikes := decFloor video.dislikes, likes := video.likes + 1 }
          match LikeType.ofString s with
          | none => (serverError, st)
          | some t =>
            let st1 :=
              { st with
                likes := updateOne (fun l => l._id == existingLike._id)
                  (fun l => { l with type := t }) st.likes }
            saveVideoCounters st1 video1 (some s)
        else saveVideoCounters st video (some s)
    | none =>
      match truthy status with
      | some s =>
        let video1 :=
          if s = "like" then { video with likes := video.likes + 1 }
          else { video with dislikes := video.dislikes + 1 }
        match LikeType.ofString s with
        | none => (serverError, st)
        | some t =>
          let newLike : Like :=
            { _id := newId, user := user, video := some video._id, comment := none, type := t }
          if likeIndexConflict st.likes newLike then (serverError, st)
          else saveVideoCounters { st with likes := st.likes ++ [newLike] } video1 (some s)
      | none => saveVideoCounters st video none

/-! ## `POST /:id/like` (`routes/comments.js`) -/

/-- The call `comment.save()` after the handler assigned `likes`. -/
def saveCommentLikes (st : Store) (comment : Comment) : Store :=
  { st with
    comments := updateOne (fun c => c._id == comment._id)
      (fun c => { c with likes := comment.likes }) st.comments }

/-- The handler of `POST /:id/like` on the comments router, behind `auth`:
`action` is `req.body.action`. -/
def likeComment (st : Store) (user : ObjectId) (id : String) (action : Option String)
    (newId : ObjectId) : Response × Store :=
  match st.findCommentById id with
  | none => (serverError, st)
  | some none => (jsonMessage 404 "Comment not found", st)
  | some (some comment) =>
    let existingLike := st.findCommentLike user comment._id
    if action = some "like" then
      match existingLike with
      | none =>
        let newLike : Like :=
          { _id := newId, user := user, video := none, comment := some comment._id,
            type := .like }
        if likeIndexConflict st.likes newLike then (serverError, st)
        else
          let comment1 := { comment with likes := comment.likes + 1 }
          ({ status := 200, headers := [], body := .commentLikes comment1.likes },
           saveCommentLikes { st with likes := st.likes ++ [newLike] } comment1)
      | some _ => ({ status := 200, headers := [], body := .commentLikes comment.likes }, st)
    else if action = some "unlike" then
      match existingLike with
      | some like =>
        let comment1 := { comment with likes := decFloor comment.likes }
        ({ status := 200, headers := [], body := .commentLikes comment1.likes },
         saveCommentLikes
           { st with likes := deleteOne (fun l => l._id == like._id) st.likes } comment1)
      | none => ({ status := 200, headers := [], body := .commentLikes comment.likes }, st)
    else ({ status := 200, headers := [], body := .commentLikes comment.likes }, st)

/-! ## `POST /` (`routes/subscriptions.js`) -/

/-- The handler of `POST /` on the subscriptions router, behind `auth`: `user`
is `req.user._id`, `creatorId` is `req.body.creatorId` (absent or a string). -/
def subscribe (st : Store) (user : ObjectId) (creatorId : Option String)
    (newId : ObjectId) : Response × Store :=
  match truthy creatorId with
  | none => (jsonMessage 400 "Creator ID is required", st)
  | some cid =>
    match castObjectId cid with
    | none => (serverError, st)
    | some oid =>
      match st.users.find? fun u => u._id == oid with
      | none => (jsonMessage 404 "Creator not found", st)
      | some creator =>
        if ObjectId.toString user = cid then
          (jsonMessage 400 "You cannot subscribe to yourself", st)
        else
          match st.subscriptions.find? fun x => x.subscriber == user && x.creator == oid with
          | some _ => (jsonMessage 400 "Already subscribed to this channel", st)
          | none =>
            let subscription : Subscription :=
              { _id := newId, subscriber := user, creator := oid }
            ({ status := 201, headers := [],
               body := .subscribed "Subscribed successfully" subscription },
             { st with
               subscriptions := st.subscriptions ++ [subscription]
               users := updateOne (fun u => u._id == creator._id)
                 (fun u => { u with subscribersCount := creator.subscribersCount + 1 })
                 st.users })

/-! ## `DELETE /:creatorId` (`routes/subscriptions.js`) -/

/-- The handler of `DELETE /:creatorId` on the subscriptions router, behind
`auth`: `creatorId` is `req.params.creatorId`. -/
def unsubscribe (st : Store) (user : ObjectId) (creatorId : String) : Response × Store :=
  match castObjectId creatorId with
  | none => (serverError, st)
  | some oid =>
    match st.subscriptions.find? fun x => x.subscriber == user && x.creator == oid with
    | none => (jsonMessage 404 "Subscription not found", st)
    | some subscription =>
      let st1 :=
        { st with
          subscriptions := deleteOne (fun x => x._id == subscription._id) st.subscriptions }
      match st1.users.find? fun u => u._id == oid with
      | some creator =>
        (jsonMessage 200 "Unsubscribed successfully",
         { st1 with
           users := updateOne (fun u => u._id == creator._id)
             (fun u => { u with subscribersCount := decFloor creator.subscribersCount })
             st1.users })
      | none => (jsonMessage 200 "Unsubscribed successfully", st1)

/-! ## `routes/history.js` -/

/-- The handler of `POST /` on the history router, behind `auth`: `videoId` is
`req.body.videoId` (absent or a string), `now` is the value of `Date.now()`
during the call. -/
def recordView (st : Store) (user : ObjectId) (videoId : Option String) (now : Nat)
    (newId : ObjectId) : Response × Store :=
  match truthy videoId with
  | none => (jsonMessage 400 "Video ID is required", st)
  | some vid =>
    match castObjectId vid with
    | none => (serverError, st)
    | some oid =>
      match st.histories.find? fun h => h.user == user && h.video == oid with
      | some existingEntry =>
        ({ status := 200, headers := [],
           body := .history { existingEntry with watchedAt := now } },
         { st with
           histories := updateOne (fun h => h._id == existingEntry._id)
             (fun h => { h with watchedAt := now }) st.histories })
      | none =>
        let historyEntry : History :=
          { _id := newId, user := user, video := oid, watchedAt := now }
        ({ status := 201, headers := [], body := .history historyEntry },
         { st with histories := st.histories ++ [historyEntry] })

/-- The handler of `DELETE /` on the history router: `History.deleteMany({ user })`. -/
def clearHistory (st : Store) (user : ObjectId) : Response × Store :=
  (jsonMessage 200 "Watch history cleared successfully",
   { st with histories := st.histories.filter fun h => !(h.user == user) })

/-- The handler of `DELETE /:videoId` on the history router:
`History.deleteOne({ user, video })`. -/
def removeFromHistory (st : Store) (user : ObjectId) (videoId : String) : Response × Store :=
  match castObjectId videoId with
  | none => (serverError, st)
  | some oid =>
    (jsonMessage 200 "Video removed from history",
     { st with histories := deleteOne (fun h => h.user == user && h.video == oid) st.histories })

/-! ## `GET /:id` (`routes/videos.js`) -/

/-- The `jsonwebtoken` module as far as the handler uses it: `verify(token,
secret)` returns the payload's `id`, or throws (`none`). -/
structure Jwt where
  verify : String → Option String

/-- The binding of the identifier `jwt` in `routes/videos.js`. The module
requires `express`, `path`, `fs`, `util`, `get-video-duration`,
`fluent-ffmpeg`, `mongoose`, the `auth` and `upload` middleware and the five
models; nothing is bound to `jwt`, so evaluating `jwt.verify` throws a
`ReferenceError`. -/
def videosJwt : Option Jwt := none

/-- The handler of `GET /:id` on the videos router with the identifier `jwt`
bound as given; `authorization` is `req.headers.authorization`. Everything
after the view count is saved sits in an inner `try` whose `catch` ignores the
error. -/
def getVideoWith (jwt : Option Jwt) (st : Store) (id : String)
    (authorization : Option String) : Response × Store :=
  match st.findVideoById id with
  | none => (serverError, st)
  | some none => (jsonMessage 404 "Video not found", st)
  | some (some video) =>
    let video1 := { video with views := video.views + 1 }
    let st1 :=
      { st with
        videos := updateOne (fun w => w._id == video._id)
          (fun w => { w with views := video1.views }) st.videos }
    let plain : Response := { status := 200, headers := [], body := .video video1 none none }
    match truthy authorization with
    | none => (plain, st1)
    | some header =>
      match jwt with
      | none => (plain, st1)
      | some j =>
        match j.verify (String.mk (removeFirst "Bearer ".data header.data)) with
        | none => (plain, st1)
        | some decodedId =>
          match st1.findUserById decodedId with
          | some (some user) =>
            match st1.findVideoLike user._id video._id with
            | some like =>
              ({ status := 200, headers := [],
                 body := .video video1 (some (like.type == .like))
                   (some (like.type == .dislike)) }, st1)
            | none => (plain, st1)
          | _ => (plain, st1)

/-- The handler of `GET /:id` as the module stands. -/
def getVideo (st : Store) (id : String) (authorization : Option String) : Response × Store :=
  getVideoWith videosJwt st id authorization

/-- The handler of `GET /:id/stream` as a step on the store: it issues no
write. -/
def streamVideoStep (st : Store) (id : String) (range : Option String) : Response × Store :=
  (streamVideo st id range, st)

/-! ## `middleware/upload.js` -/

/-- What a file filter passes to its callback: `cb(null, true)` or
`cb(new Error(message), false)`. -/
inductive FilterResult where
  | accept
  | reject (message : String)
  deriving DecidableEq, Repr

/-- The function `videoFilter`, on `file.mimetype`. -/
def videoFilter (mimetype : String) : FilterResult :=
  if mimetype ∈ ["video/mp4", "video/webm", "video/ogg", "video/quicktime"] then .accept
  else .reject "Invalid file type. Only video files are allowed."

/-- The function `imageFilter`, on `file.mimetype`. -/
def imageFilter (mimetype : String) : FilterResult :=
  if mimetype ∈ ["image/jpeg", "image/png", "image/gif", "image/webp"] then .accept
  else .reject "Invalid file type. Only image files are allowed."

/-- The `fileFilter` of `uploadVideoWithThumbnail`, on `file.fieldname` and
`file.mimetype`. -/
def uploadFileFilter (fieldname mimetype : String) : FilterResult :=
  if fieldname = "video" then videoFilter mimetype
  else if fieldname = "thumbnail" then imageFilter mimetype
  else .reject "Unexpected field"

/-! ## `DELETE /:id` (`routes/comments.js`) and `DELETE /account` (`routes/users.js`) -/

/-- The handler of `DELETE /:id` on the comments router, behind `auth`. -/
def deleteComment (st : Store) (user : ObjectId) (id : String) : Response × Store :=
  match st.findCommentById id with
  | none => (serverError, st)
  | some none => (jsonMessage 404 "Comment not found", st)
  | some (some comment) =>
    if ObjectId.toString comment.user ≠ ObjectId.toString user then
      (jsonMessage 403 "Not authorized to delete this comment", st)
    else
      (jsonMessage 200 "Comment deleted successfully",
       { st with
         likes := st.likes.filter fun l => !(l.comment == some comment._id)
         comments := deleteOne (fun c => c._id == comment._id) st.comments })

/-- The loop `for (const sub of subscriptions)` of the account deletion:
lower the subscriber count of each creator that still exists. -/
def lowerCreatorCounts (users : List User) : List Subscription → List User
  | [] => users
  | sub :: subs =>
    match users.find? fun u => u._id == sub.creator with
    | some creator =>
      lowerCreatorCounts
        (updateOne (fun u => u._id == creator._id)
          (fun u => { u with subscribersCount := decFloor creator.subscribersCount }) users)
        subs
    | none => lowerCreatorCounts users subs

/-- The handler of `DELETE /account` on the users router, behind `auth`:
`user` is `req.user._id`. In order: unlink the files of the user's videos,
delete the user's videos, delete the subscriptions the user is part of, read
the user's subscriptions and lower the creators' counts, delete the user. The
thumbnail and avatar directories are not part of the store. -/
def deleteAccount (st : Store) (user : ObjectId) : Response × Store :=
  let videos := st.videos.filter fun v => v.creator == user
  let files1 :=
    videos.foldl
      (fun fs v => if v.fileName = "" then fs else deleteOne (fun f => f.1 == v.fileName) fs)
      st.videoFiles
  let st1 :=
    { st with
      videoFiles := files1
      videos := st.videos.filter fun v => !(v.creator == user) }
  let st2 :=
    { st1 with
      subscriptions :=
        st1.subscriptions.filter fun x => !(x.subscriber == user || x.creator == user) }
  let subscriptions := st2.subscriptions.filter fun x => x.subscriber == user
  let st3 := { st2 with users := lowerCreatorCounts st2.users subscriptions }
  (jsonMessage 200 "Account deleted successfully",
   { st3 with users := deleteOne (fun u => u._id == user) st3.users })

/-! ## `GET /related/:id` (`routes/videos.js`) -/

/-- The filter of the related-videos query:
`{ _id: { $ne }, isPrivate: false, $or: [{ category }, { creator }] }`, where
the category condition is equality with the video's category when that is
non-empty and `{ $exists: true }` otherwise (every record has the field). -/
def relatedQuery (video : Video) (w : Video) : Bool :=
  w._id != video._id && w.isPrivate == false &&
    ((if video.category ≠ "" then w.category == video.category else true) ||
      w.creator == video.creator)

/-- The order of `.sort({ views: -1 })`. -/
def byViewsDesc (a b : Video) : Prop := b.views ≤ a.views

instance : DecidableRel byViewsDesc := fun a b => inferInstanceAs (Decidable (b.views ≤ a.views))

/-- The handler of `GET /related/:id`: filter, sort by views descending (ties
keep insertion order), the first 10. -/
def getRelatedVideos (st : Store) (id : String) : Response :=
  match st.findVideoById id with
  | none => serverError
  | some none => jsonMessage 404 "Video not found"
  | some (some video) =>
    { status := 200, headers := []
      body := .videos
        (((st.videos.filter (relatedQuery video)).insertionSort byViewsDesc).take 10) }

/-! ## `GET /subscriptions` and the dispatch of `GET` requests (`routes/videos.js`) -/

/-- The order of `.sort({ createdAt: -1 })`. -/
def byCreatedDesc (a b : Video) : Prop := b.createdAt ≤ a.createdAt

instance : DecidableRel byCreatedDesc :=
  fun a b => inferInstanceAs (Decidable (b.createdAt ≤ a.createdAt))

/-- The handler registered for `GET /subscriptions`, behind `auth`: the
non-private videos of the creators `user` subscribes to, newest first (ties
keep insertion order), the first 50. -/
def getSubscriptionVideos (st : Store) (user : ObjectId) : Response :=
  let subscriptions := st.subscriptions.filter fun x => x.subscriber == user
  if subscriptions.length = 0 then { status := 200, headers := [], body := .videos [] }
  else
    let creatorIds := subscriptions.map fun sub => sub.creator
    { status := 200, headers := []
      body := .videos
        (((st.videos.filter fun v => creatorIds.contains v.creator && v.isPrivate == false).insertionSort
          byCreatedDesc).take 50) }

/-- A segment of a route path: literal text or a named parameter `:name`. -/
inductive Segment where
  | lit (text : String)
  | param (name : String)
  deriving DecidableEq, Repr

/-- The handlers registered with `router.get` in `routes/videos.js`. -/
inductive VideosGet where
  | list
  | detail
  | stream
  | thumbnail
  | likeStatus
  | userVideos
  | related
  | subscriptions
  | comments
  deriving DecidableEq, Repr

/-- The `router.get` calls of `routes/videos.js` in the order of registration:
`/`, `/:id`, `/:id/stream`, `/:id/thumbnail`, `/:id/like/status`,
`/user/:userId`, `/related/:id`, `/subscriptions`, `/:id/comments`. -/
def videosGetRoutes : List (VideosGet × List Segment) :=
  [(.list, []),
   (.detail, [.param "id"]),
   (.stream, [.param "id", .lit "stream"]),
   (.thumbnail, [.param "id", .lit "thumbnail"]),
   (.likeStatus, [.param "id", .lit "like", .lit "status"]),
   (.userVideos, [.lit "user", .param "userId"]),
   (.related, [.lit "related", .param "id"]),
   (.subscriptions, [.lit "subscriptions"]),
   (.comments, [.param "id", .lit "comments"])]

/-- The segments of a request path below the router's mount point: the path
starts with `/`, one trailing `/` is optional (the router is not strict). -/
def pathSegments (path : String) : Option (List (List Char)) :=
  match path.data with
  | '/' :: rest =>
    if rest = [] then some []
    else some (split '/' (if rest.getLast? = some '/' then rest.dropLast else rest))
  | _ => none

/-- Matching of a route path against the segments of a request path, as the
regular expression Express builds for it does: a literal matches its text
without regard to case (the router is not case sensitive), a parameter matches
one non-empty segment. The result is `req.params`. -/
def matchSegments : List Segment → List (List Char) → Option (List (String × String))
  | [], [] => some []
  | .lit text :: ps, s :: ss =>
    if s.map Char.toLower = text.data.map Char.toLower then matchSegments ps ss else none
  | .param name :: ps, s :: ss =>
    if s = [] then none else (matchSegments ps ss).map fun params => (name, String.mk s) :: params
  | _, _ => none

/-- First match in registration order: the handler that receives the request. No
handler of the router calls `next()`, so no later route is tried. -/
def firstMatch :
    List (VideosGet × List Segment) → List (List Char) → Option (VideosGet × List (String × String))
  | [], _ => none
  | (route, pattern) :: rest, segments =>
    match matchSegments pattern segments with
    | some params => some (route, params)
    | none => firstMatch rest segments

/-- The handler of the videos router that receives a `GET` request for `path`,
with its `req.params`. -/
def dispatchGet (path : String) : Option (VideosGet × List (String × String)) :=
  match pathSegments path with
  | none => none
  | some segments => firstMatch videosGetRoutes segments

/-! ## Constraints and invariants of the store -/

/-- The unique index `{ user: 1, video: 1 }` of `models/Like.js`, as its comment
states it: no two reactions of one user on one video. -/
def UniqueVideoLikes (likes : List Like) : Prop :=
  likes.Pairwise fun a b => ¬ (a.user = b.user ∧ a.video.isSome = true ∧ a.video = b.video)

/-- The unique index `{ user: 1, comment: 1 }` of `models/Like.js`: no two
reactions of one user on one comment. -/
def UniqueCommentLikes (likes : List Like) : Prop :=
  likes.Pairwise fun a b =>
    ¬ (a.user = b.user ∧ a.comment.isSome = true ∧ a.comment = b.comment)

/-- Document ids are unique within the `likes` collection. -/
def UniqueLikeIds (likes : List Like) : Prop := (likes.map Like._id).Nodup

/-- The number of reactions of the given kind that reference the video. -/
def countReactions (likes : List Like) (video : ObjectId) (t : LikeType) : Nat :=
  likes.countP fun l => l.video == some video && l.type == t

/-- The counter invariant of the spec: ids are unique, the unique index on
(user, video) holds, and every video's counters equal the number of reactions
of that kind referencing it. -/
def Consistent (st : Store) : Prop :=
  (st.videos.map Video._id).Nodup ∧ UniqueLikeIds st.likes ∧ UniqueVideoLikes st.likes ∧
  ∀ v ∈ st.videos,
    v.likes = countReactions st.likes v._id .like ∧
    v.dislikes = countReactions st.likes v._id .dislike

/-- The statuses the client sends: `like`, `dislike`, or `null` for none. -/
def validStatus (status : Option String) : Prop :=
  status = none ∨ status = some "like" ∨ status = some "dislike"

/-- One call of the video reaction handler with a valid status; the id of a
created document is fresh. -/
inductive ReactionStep : Store → Store → Prop where
  | call (st : Store) (user : ObjectId) (id : String) (status : Option String)
      (newId : ObjectId) (hs : validStatus status)
      (hfresh : newId ∉ st.likes.map Like._id) :
      ReactionStep st (likeVideo st user id status newId).2

/-- One call of the video reaction handler or of the comment like handler,
with any request body. -/
inductive LedgerStep : Store → Store → Prop where
  | video (st : Store) (user : ObjectId) (id : String) (status : Option String)
      (newId : ObjectId) : LedgerStep st (likeVideo st user id status newId).2
  | comment (st : Store) (user : ObjectId) (id : String) (action : Option String)
      (newId : ObjectId) : LedgerStep st (likeComment st user id action newId).2

/-- The stores reachable by calls of the video reaction handler in sequence. -/
def ReactionReachable (st0 st : Store) : Prop := Relation.ReflTransGen ReactionStep st0 st

/-- The stores reachable by calls of the two reaction handlers in sequence. -/
def LedgerReachable (st0 st : Store) : Prop := Relation.ReflTransGen LedgerStep st0 st

/-- Document ids are unique within the `subscriptions` collection. -/
def UniqueSubscriptionIds (subs : List Subscription) : Prop :=
  (subs.map Subscription._id).Nodup

/-- Document ids are unique within the `histories` collection. -/
def UniqueHistoryIds (hs : List History) : Prop := (hs.map History._id).Nodup

/-- The unique index `{ user: 1, video: 1 }` of `models/History.js`: no two
history records of one user for one video. -/
def UniqueHistory (hs : List History) : Prop :=
  hs.Pairwise fun a b => ¬ (a.user = b.user ∧ a.video = b.video)

/-- One request as far as the `histories` collection is concerned: a call of
one of the three writing handlers of `routes/history.js`, or any other route,
none of which writes the collection. -/
inductive HistoryStep : Store → Store → Prop where
  | record (st : Store) (user : ObjectId) (videoId : Option String) (now : Nat)
      (newId : ObjectId) : HistoryStep st (recordView st user videoId now newId).2
  | clear (st : Store) (user : ObjectId) : HistoryStep st (clearHistory st user).2
  | remove (st : Store) (user : ObjectId) (videoId : String) :
      HistoryStep st (removeFromHistory st user videoId).2
  | other (st st1 : Store) (h : st1.histories = st.histories) : HistoryStep st st1

/-- The stores reachable by requests in sequence, as far as the `histories`
collection is concerned. -/
def HistoryReachable (st0 st : Store) : Prop := Relation.ReflTransGen HistoryStep st0 st

/-! ## Sample data -/

/-- A video record with the schema defaults, for the concrete checks. -/
def sampleVideo (id : ObjectId) (fileName : String) (creator : ObjectId) : Video :=
  { _id := id, title := "clip", description := "", fileName := fileName, thumbnail := "",
    duration := 0, views := 0, likes := 0, dislikes := 0, category := "",
    creator := creator, isPrivate := false, createdAt := 0 }

/-- A store holding one video whose file has 1000 bytes. -/
def streamStore : Store :=
  { users := [], videos := [sampleVideo 1 "a.mp4" 2], comments := [], likes := [],
    subscriptions := [], histories := [],
    videoFiles := [("a.mp4", List.replicate 1000 0)] }

/-- A store with one video and one comment and no reaction yet. -/
def freshStore : Store :=
  { users := [], videos := [sampleVideo 1 "a.mp4" 2],
    comments := [{ _id := 5, video := 1, user := 2, content := "hi", likes := 0,
                   edited := false, createdAt := 0 }],
    likes := [], subscriptions := [], histories := [], videoFiles := [] }

/-- The store after user 7 liked video 1: one reaction, `likes = 1`. -/
def likedStore : Store :=
  { freshStore with
    videos := [{ sampleVideo 1 "a.mp4" 2 with likes := 1 }]
    likes := [{ _id := 10, user := 7, video := some 1, comment := none, type := .like }] }

/-- A store whose counter has drifted below the ledger: user 7 has a `like`
reaction on video 1 while the video's `likes` is 0. -/
def driftStore : Store :=
  { freshStore with
    likes := [{ _id := 10, user := 7, video := some 1, comment := none, type := .like }] }

/-- The store after user 7 liked comment 5: one reaction, the comment's
`likes` is 1. -/
def commentLikedStore : Store :=
  { freshStore with
    comments := [{ _id := 5, video := 1, user := 2, content := "hi", likes := 1,
                   edited := false, createdAt := 0 }]
    likes := [{ _id := 10, user := 7, video := none, comment := some 5, type := .like }] }

/-- A store with two videos, two comments and no reaction yet. -/
def pairStore : Store :=
  { freshStore with
    videos := [sampleVideo 1 "a.mp4" 2, sampleVideo 3 "b.mp4" 2]
    comments := [{ _id := 5, video := 1, user := 2, content := "hi", likes := 0,
                   edited := false, createdAt := 0 },
                 { _id := 6, video := 1, user := 2, content := "yo", likes := 0,
                   edited := false, createdAt := 0 }] }

/-- The store `pairStore` after user 7 liked video 1. -/
def pairVideoLikedStore : Store :=
  { pairStore with
    videos := [{ sampleVideo 1 "a.mp4" 2 with likes := 1 }, sampleVideo 3 "b.mp4" 2]
    likes := [{ _id := 10, user := 7, video := some 1, comment := none, type := .like }] }

/-- The store `pairStore` after user 7 liked comment 5. -/
def pairCommentLikedStore : Store :=
  { pairStore with
    comments := [{ _id := 5, video := 1, user := 2, content := "hi", likes := 1,
                   edited := false, createdAt := 0 },
                 { _id := 6, video := 1, user := 2, content := "yo", likes := 0,
                   edited := false, createdAt := 0 }]
    likes := [{ _id := 10, user := 7, video := none, comment := some 5, type := .like }] }

/-- A store with the single user `507f1f77bcf86cd799439011`. -/
def selfStore : Store :=
  { users := [{ _id := 0x507f1f77bcf86cd799439011, username := "ann", avatar := "", bio := "",
                subscribersCount := 0 }],
    videos := [], comments := [], likes := [], subscriptions := [], histories := [],
    videoFiles := [] }

/-- A store with two users, a creator (id 1, 3 subscribers counted) and a
viewer (id 2), and no subscription between them. -/
def channelStore : Store :=
  { users := [{ _id := 1, username := "creator", avatar := "", bio := "",
                subscribersCount := 3 },
              { _id := 2, username := "viewer", avatar := "", bio := "",
                subscribersCount := 0 }],
    videos := [], comments := [], likes := [], subscriptions := [], histories := [],
    videoFiles := [] }

/-- The store after the viewer subscribed to the creator. -/
def subscribedStore : Store :=
  { channelStore with
    users := [{ _id := 1, username := "creator", avatar := "", bio := "",
                subscribersCount := 4 },
              { _id := 2, username := "viewer", avatar := "", bio := "",
                subscribersCount := 0 }]
    subscriptions := [{ _id := 20, subscriber := 2, creator := 1 }] }

/-- A store in which user 7 watched video 1 at time 100. -/
def watchedStore : Store :=
  { freshStore with histories := [{ _id := 30, user := 7, video := 1, watchedAt := 100 }] }

/-- The store in which user 7 exists and has a `like` reaction on video 1. -/
def viewerStore : Store :=
  { likedStore with
    users := [{ _id := 7, username := "viewer", avatar := "", bio := "",
                subscribersCount := 0 }] }

/-- A `jsonwebtoken` stand-in that accepts the one token `token-of-user-7` and
decodes it to the id of user 7. -/
def sampleJwt : Jwt :=
  { verify := fun token =>
      if token = "token-of-user-7" then some "000000000000000000000007" else none }

/-- A consistent store: the viewer (id 2) is subscribed to the creator (id 1),
whose count is 1, and the viewer has written a comment, reacted to video 1 and
watched it. -/
def followStore : Store :=
  { users := [{ _id := 1, username := "creator", avatar := "", bio := "",
                subscribersCount := 1 },
              { _id := 2, username := "viewer", avatar := "", bio := "",
                subscribersCount := 0 }],
    videos := [{ sampleVideo 1 "a.mp4" 1 with likes := 1 },
               sampleVideo 3 "b.mp4" 2],
    comments := [{ _id := 5, video := 1, user := 2, content := "hi", likes := 0,
                   edited := false, createdAt := 0 }],
    likes := [{ _id := 10, user := 2, video := some 1, comment := none, type := .like }],
    subscriptions := [{ _id := 20, subscriber := 2, creator := 1 }],
    histories := [{ _id := 30, user := 2, video := 1, watchedAt := 100 }],
    videoFiles := [("a.mp4", []), ("b.mp4", [])] }

/-- Four videos for the related-videos query: the reference video (id 1, Music,
creator 1), one of the same category, one of the same creator, and one that
shares neither. -/
def relatedStore : Store :=
  { users := [], comments := [], likes := [], subscriptions := [], histories := [],
    videoFiles := [],
    videos := [{ sampleVideo 1 "a.mp4" 1 with category := "Music" },
               { sampleVideo 2 "b.mp4" 2 with category := "Music", views := 5 },
               { sampleVideo 3 "c.mp4" 1 with category := "News", views := 9 },
               { sampleVideo 4 "d.mp4" 2 with category := "News", views := 7 }] }

/-! ## Lemmas: strings and numbers -/

theorem digitChar_toNat (k : Nat) (hk : k < 10) : (Nat.digitChar k).toNat = 48 + k := by
  have h : ∀ j : Fin 10, (Nat.digitChar j.val).toNat = 48 + j.val := by decide
  exact h ⟨k, hk⟩

theorem digitsValue_append (acc : Nat) (xs ys : List Char) :
    digitsValue acc (xs ++ ys) = digitsValue (digitsValue acc xs) ys := by
  induction xs generalizing acc with
  | nil => rfl
  | cons x xs ih => exact ih _

theorem digitsValue_singleton (acc : Nat) (d : Char) (k : Nat) (hd : d.toNat = 48 + k) :
    digitsValue acc [d] = 10 * acc + k := by
  show 10 * acc + (d.toNat - 48) = 10 * acc + k
  omega

theorem isDecDigit_of_toNat (d : Char) (k : Nat) (hk : k < 10) (hd : d.toNat = 48 + k) :
    isDecDigit d = true := by
  simp only [isDecDigit, hd, Bool.and_eq_true, decide_eq_true_eq]
  omega

theorem toDigitsCore_spec (fuel : Nat) :
    ∀ (n : Nat) (ds : List Char), n < fuel →
      ∃ pre, Nat.toDigitsCore 10 fuel n ds = pre ++ ds ∧ pre ≠ [] ∧
        (∀ c ∈ pre, isDecDigit c = true) ∧
        ∀ acc, digitsValue acc pre = acc * 10 ^ pre.length + n := by
  induction fuel with
  | zero => intro n ds h; omega
  | succ fuel ih =>
    intro n ds hn
    have hmod : n % 10 < 10 := Nat.mod_lt n (by decide)
    have hd : (Nat.digitChar (n % 10)).toNat = 48 + n % 10 := digitChar_toNat _ hmod
    have hstep : Nat.toDigitsCore 10 (fuel + 1) n ds =
        if n / 10 = 0 then Nat.digitChar (n % 10) :: ds
        else Nat.toDigitsCore 10 fuel (n / 10) (Nat.digitChar (n % 10) :: ds) := rfl
    rw [hstep]
    generalize Nat.digitChar (n % 10) = d at hd ⊢
    have hdig : isDecDigit d = true := isDecDigit_of_toNat d _ hmod hd
    by_cases h0 : n / 10 = 0
    · refine ⟨[d], ?_, by simp, ?_, ?_⟩
      · rw [if_pos h0]; rfl
      · intro c hc
        rw [List.mem_singleton.mp hc]; exact hdig
      · intro acc
        rw [digitsValue_singleton acc d _ hd, List.length_singleton, pow_one]
        omega
    · have hlt : n / 10 < fuel := by omega
      obtain ⟨pre, hpre, _, hall, hval⟩ := ih (n / 10) (d :: ds) hlt
      refine ⟨pre ++ [d], ?_, by simp, ?_, ?_⟩
      · rw [if_neg h0, hpre]; simp
      · intro c hc
        rcases List.mem_append.mp hc with h | h
        · exact hall c h
        · rw [List.mem_singleton.mp h]; exact hdig
      · intro acc
        rw [digitsValue_append, hval acc, digitsValue_singleton _ d _ hd,
          List.length_append, List.length_singleton, pow_succ]
        have h1 := Nat.div_add_mod n 10
        have h2 : 10 * (acc * 10 ^ pre.length + n / 10) =
            acc * (10 ^ pre.length * 10) + 10 * (n / 10) := by ring
        omega

theorem toDigits_spec (n : Nat) :
    Nat.toDigits 10 n ≠ [] ∧ (∀ c ∈ Nat.toDigits 10 n, isDecDigit c = true) ∧
      digitsValue 0 (Nat.toDigits 10 n) = n := by
  obtain ⟨pre, hpre, hne, hall, hval⟩ := toDigitsCore_spec (n + 1) n [] (Nat.lt_succ_self n)
  have h : Nat.toDigits 10 n = pre := by
    simp [Nat.toDigits, hpre]
  rw [h]
  exact ⟨hne, hall, by simpa using hval 0⟩

theorem removeFirst_bytes (rest : List Char) :
    removeFirst "bytes=".data ("bytes=".data ++ rest) = rest := by
  simp [removeFirst, List.isPrefixOf]

theorem isDecDigit_ne_dash (c : Char) (h : isDecDigit c = true) : c ≠ '-' := by
  intro hc
  rw [hc] at h
  revert h
  decide

theorem isDecDigit_ne_plus (c : Char) (h : isDecDigit c = true) : c ≠ '+' := by
  intro hc
  rw [hc] at h
  revert h
  decide

theorem isDecDigit_not_space (c : Char) (h : isDecDigit c = true) :
    isStrWhiteSpace c = false := by
  simp only [isDecDigit, Bool.and_eq_true, decide_eq_true_eq] at h
  simp only [isStrWhiteSpace, Bool.or_eq_false_iff, Bool.and_eq_false_iff,
    decide_eq_false_iff_not]
  omega

theorem split_digits (ds : List Char) (h : ∀ c ∈ ds, isDecDigit c = true) :
    split '-' ds = [ds] := by
  induction ds with
  | nil => rfl
  | cons c cs ih =>
    have hc : c ≠ '-' := isDecDigit_ne_dash c (h c (List.mem_cons_self _ _))
    have hcs := ih (fun x hx => h x (List.mem_cons_of_mem _ hx))
    simp [split, hc, hcs]

theorem split_digits_dash (ds rest : List Char) (h : ∀ c ∈ ds, isDecDigit c = true) :
    split '-' (ds ++ '-' :: rest) = ds :: split '-' rest := by
  induction ds with
  | nil => simp [split]
  | cons c cs ih =>
    have hc : c ≠ '-' := isDecDigit_ne_dash c (h c (List.mem_cons_self _ _))
    have hcs := ih (fun x hx => h x (List.mem_cons_of_mem _ hx))
    simp [split, hc, hcs]

theorem parseInt_digits (ds : List Char) (hne : ds ≠ [])
    (h : ∀ c ∈ ds, isDecDigit c = true) : parseInt ds = .int (digitsValue 0 ds) := by
  obtain ⟨c, cs, rfl⟩ := List.exists_cons_of_ne_nil hne
  have hc := h c (List.mem_cons_self _ _)
  have hsp := isDecDigit_not_space c hc
  have hd := isDecDigit_ne_dash c hc
  have hp := isDecDigit_ne_plus c hc
  have htw : List.takeWhile isDecDigit (c :: cs) = c :: cs :=
    List.takeWhile_eq_self_iff.mpr h
  have hdw : List.dropWhile isStrWhiteSpace (c :: cs) = c :: cs := by
    simp [List.dropWhile, hsp]
  have hdc : (some c = some '-') = False := by simp [hd]
  have hpc : (some c = some '+') = False := by simp [hp]
  unfold parseInt
  simp only [hdw, List.head?_cons, hdc, hpc, or_self, if_false, htw, decide_False]
  simp

theorem parseRange_digits (ds de : List Char) (size : Nat) (hne : ds ≠ [])
    (hds : ∀ c ∈ ds, isDecDigit c = true) (hde : ∀ c ∈ de, isDecDigit c = true) :
    parseRange (String.mk ("bytes=".data ++ (ds ++ '-' :: de))) size =
      (.int (digitsValue 0 ds),
        if de = [] then .int ((size : Int) - 1) else .int (digitsValue 0 de)) := by
  have hdata : (String.mk ("bytes=".data ++ (ds ++ '-' :: de))).data =
      "bytes=".data ++ (ds ++ '-' :: de) := rfl
  unfold parseRange
  rw [hdata, removeFirst_bytes, split_digits_dash ds de hds, split_digits de hde]
  cases de with
  | nil => simp [parseInt_digits ds hne hds]
  | cons c cs => simp [parseInt_digits ds hne hds, parseInt_digits (c :: cs) (by simp) hde]

/-! ## Lemmas: the stream handler -/

theorem streamVideo_range (st : Store) (id : String) (video : Video) (file : List Byte)
    (r : String) (hv : st.findVideoById id = some (some video))
    (hf : st.statVideoFile video.fileName = some file) (hr : r ≠ "") :
    streamVideo st id (some r) =
      match createReadStream file (parseRange r file.length).1 (parseRange r file.length).2 with
      | none => serverError
      | some bytes =>
        { status := 206
          headers :=
            [("Content-Range",
                "bytes " ++ (parseRange r file.length).1.toString ++ "-" ++
                  (parseRange r file.length).2.toString ++ "/" ++ natToString file.length),
             ("Accept-Ranges", "bytes"),
             ("Content-Length",
                (chunkSizeOf (parseRange r file.length).2 (parseRange r file.length).1).toString),
             ("Content-Type", "video/mp4")]
          body := .stream bytes } := by
  unfold streamVideo
  simp only [hv, hf, hr, if_false]

theorem Num.toString_natCast (n : Nat) : Num.toString (.int (n : Int)) = natToString n := rfl

theorem validStreamOffset_natCast (n : Nat) (h : n < 2 ^ 53) :
    validStreamOffset (.int (n : Int)) = some n := by
  have h1 : (0 : Int) ≤ (n : Int) := Int.natCast_nonneg n
  have h2 : (n : Int) ≤ maxSafeInteger := by
    unfold maxSafeInteger
    have : (n : Int) < 2 ^ 53 := by exact_mod_cast h
    omega
  simp [validStreamOffset, h1, h2]

theorem createReadStream_nat (file : List Byte) (s e : Nat) (hse : s ≤ e) (he : e < 2 ^ 53) :
    createReadStream file (.int (s : Int)) (.int (e : Int)) =
      some ((file.drop s).take (e - s + 1)) := by
  have hs : s < 2 ^ 53 := lt_of_le_of_lt hse he
  simp [createReadStream, validStreamOffset_natCast s hs, validStreamOffset_natCast e he, hse]

theorem rangeHeader_data (start : Nat) (stop : Option Nat) :
    rangeHeader start stop =
      String.mk ("bytes=".data ++ (Nat.toDigits 10 start ++ '-' ::
        (match stop with
         | some e => Nat.toDigits 10 e
         | none => []))) := by
  apply String.ext
  cases stop <;> simp [rangeHeader, natToString, String.data_append]

theorem rangeHeader_ne_empty (start : Nat) (stop : Option Nat) : rangeHeader start stop ≠ "" := by
  rw [rangeHeader_data]
  intro h
  have := congrArg String.data h
  simp at this

theorem parseRange_rangeHeader (start : Nat) (stop : Option Nat) (size : Nat) (hsz : 0 < size) :
    parseRange (rangeHeader start stop) size =
      (.int (start : Int), .int ((stop.getD (size - 1) : Nat) : Int)) := by
  obtain ⟨hne, hall, hval⟩ := toDigits_spec start
  rw [rangeHeader_data]
  cases stop with
  | none =>
    rw [parseRange_digits _ [] size hne hall (by simp), hval]
    simp only [if_true, Option.getD_none]
    congr 2
    omega
  | some e =>
    obtain ⟨hne2, hall2, hval2⟩ := toDigits_spec e
    rw [parseRange_digits _ _ size hne hall hall2, hval, hval2]
    simp [hne2]

/-! ## Lemmas: collections -/

theorem find?_updateOne {α : Type} (p : α → Bool) (f : α → α) (hp : ∀ a, p (f a) = p a)
    (l : List α) : (updateOne p f l).find? p = (l.find? p).map f := by
  induction l with
  | nil => rfl
  | cons a as ih =>
    by_cases h : p a = true
    · simp [updateOne, h, hp]
    · simp [updateOne, h, ih]

theorem deleteOne_append {α : Type} (p : α → Bool) (l1 l2 : List α) (a : α)
    (h1 : ∀ x ∈ l1, p x = false) (ha : p a = true) :
    deleteOne p (l1 ++ a :: l2) = l1 ++ l2 := by
  induction l1 with
  | nil => simp [deleteOne, ha]
  | cons x xs ih =>
    simp [deleteOne, h1 x (List.mem_cons_self _ _),
      ih (fun y hy => h1 y (List.mem_cons_of_mem _ hy))]

theorem updateOne_append {α : Type} (p : α → Bool) (f : α → α) (l1 l2 : List α) (a : α)
    (h1 : ∀ x ∈ l1, p x = false) (ha : p a = true) :
    updateOne p f (l1 ++ a :: l2) = l1 ++ f a :: l2 := by
  induction l1 with
  | nil => simp [updateOne, ha]
  | cons x xs ih =>
    simp [updateOne, h1 x (List.mem_cons_self _ _),
      ih (fun y hy => h1 y (List.mem_cons_of_mem _ hy))]

theorem deleteOne_sublist {α : Type} (p : α → Bool) (l : List α) :
    (deleteOne p l).Sublist l := by
  induction l with
  | nil => exact List.Sublist.refl _
  | cons a as ih =>
    by_cases h : p a = true
    · simp [deleteOne, h]
    · simp [deleteOne, h, ih]

theorem map_updateOne {α β : Type} (p : α → Bool) (f : α → α) (g : α → β)
    (hg : ∀ a, g (f a) = g a) (l : List α) : (updateOne p f l).map g = l.map g := by
  induction l with
  | nil => rfl
  | cons a as ih =>
    by_cases h : p a = true
    · simp [updateOne, h, hg]
    · simp [updateOne, h, ih]

/-- A found reaction splits the collection; with unique ids no other document
carries its id. -/
theorem likes_split (likes : List Like) (q : Like → Bool) (e : Like)
    (hid : UniqueLikeIds likes) (hfind : likes.find? q = some e) :
    ∃ l1 l2, likes = l1 ++ e :: l2 ∧ q e = true ∧ (∀ x ∈ l1, q x = false) ∧
      (∀ x ∈ l1, (x._id == e._id) = false) ∧ (∀ x ∈ l2, (x._id == e._id) = false) := by
  obtain ⟨hq, l1, l2, hl, hno⟩ := List.find?_eq_some.mp hfind
  subst hl
  refine ⟨l1, l2, rfl, hq, ?_, ?_, ?_⟩
  · intro x hx
    simpa using hno x hx
  · intro x hx
    unfold UniqueLikeIds at hid
    rw [List.map_append, List.map_cons] at hid
    have hdis := (List.nodup_append.mp hid).2.2
    have hne : x._id ≠ e._id := fun heq =>
      hdis (List.mem_map_of_mem _ hx) (heq ▸ List.mem_cons_self _ _)
    simpa using hne
  · intro x hx
    unfold UniqueLikeIds at hid
    rw [List.map_append, List.map_cons] at hid
    have hnd := (List.nodup_cons.mp (List.nodup_append.mp hid).2.1).1
    have hne : x._id ≠ e._id := fun heq => hnd (heq ▸ List.mem_map_of_mem _ hx)
    simpa using hne

/-! ## Lemmas: the branches of the video reaction handler -/

theorem findVideoById_some (st : Store) (id : String) (video : Video)
    (h : st.findVideoById id = some (some video)) :
    ∃ oid, castObjectId id = some oid ∧
      st.videos.find? (fun v => v._id == oid) = some video ∧ video._id = oid := by
  unfold Store.findVideoById at h
  cases hc : castObjectId id with
  | none => simp [hc] at h
  | some oid =>
    simp only [hc, Option.map_some', Option.some.injEq] at h
    refine ⟨oid, rfl, h, ?_⟩
    have := List.find?_some h
    simpa using this

theorem saveVideoCounters_find (st st1 : Store) (id : String) (video : Video) (a b : Int)
    (status : Option String) (hvid : st1.videos = st.videos)
    (hv : st.findVideoById id = some (some video)) :
    (saveVideoCounters st1 { video with likes := a, dislikes := b } status).2.findVideoById id =
      some (some { video with likes := a, dislikes := b }) := by
  obtain ⟨oid, hc, hf, hid⟩ := findVideoById_some st id video hv
  subst hid
  have h := find?_updateOne (fun w : Video => w._id == video._id)
    (fun w => { w with likes := a, dislikes := b }) (fun _ => rfl) st.videos
  unfold saveVideoCounters Store.findVideoById
  simp only [hc, Option.map_some', hvid]
  rw [h, hf]
  rfl

theorem saveVideoCounters_same (st : Store) (id : String) (video : Video)
    (status : Option String) (hv : st.findVideoById id = some (some video)) :
    (saveVideoCounters st video status).2 = st := by
  obtain ⟨oid, hc, hf, hid⟩ := findVideoById_some st id video hv
  obtain ⟨_, l1, l2, hl, hno⟩ := List.find?_eq_some.mp hf
  unfold saveVideoCounters
  have : updateOne (fun w => w._id == video._id)
      (fun w => { w with likes := video.likes, dislikes := video.dislikes }) st.videos =
      st.videos := by
    rw [hl, updateOne_append _ _ l1 l2 video (fun x hx => by simpa [hid] using hno x hx)
      (by simp)]
  simp only [this]

theorem likeVideo_remove (st : Store) (user : ObjectId) (id : String) (video : Video)
    (e : Like) (newId : ObjectId) (hv : st.findVideoById id = some (some video))
    (he : st.findVideoLike user video._id = some e) :
    likeVideo st user id none newId =
      saveVideoCounters { st with likes := deleteOne (fun l => l._id == e._id) st.likes }
        { video with
          likes := if e.type = .like then decFloor video.likes else video.likes
          dislikes := if e.type = .dislike then decFloor video.dislikes else video.dislikes }
        none := by
  unfold likeVideo
  simp only [hv, he, truthy]
  cases e.type <;> rfl

theorem likeVideo_flip (st : Store) (user : ObjectId) (id : String) (video : Video)
    (e : Like) (t : LikeType) (newId : ObjectId)
    (hv : st.findVideoById id = some (some video))
    (he : st.findVideoLike user video._id = some e) (hne : t ≠ e.type) :
    likeVideo st user id (some t.toString) newId =
      saveVideoCounters
        { st with
          likes := updateOne (fun l => l._id == e._id) (fun l => { l with type := t }) st.likes }
        { video with
          likes := if e.type = .like then decFloor video.likes else video.likes + 1
          dislikes := if e.type = .dislike then decFloor video.dislikes else video.dislikes + 1 }
        (some t.toString) := by
  unfold likeVideo
  simp only [hv, he]
  cases t <;> cases hty : e.type <;> simp_all [truthy, LikeType.toString, LikeType.ofString]

theorem likeVideo_same (st : Store) (user : ObjectId) (id : String) (video : Video)
    (e : Like) (newId : ObjectId) (hv : st.findVideoById id = some (some video))
    (he : st.findVideoLike user video._id = some e) :
    likeVideo st user id (some e.type.toString) newId =
      saveVideoCounters st video (some e.type.toString) := by
  unfold likeVideo
  simp only [hv, he]
  cases e.type <;> simp [truthy, LikeType.toString]

theorem likeVideo_insert (st : Store) (user : ObjectId) (id : String) (video : Video)
    (t : LikeType) (newId : ObjectId) (hv : st.findVideoById id = some (some video))
    (he : st.findVideoLike user video._id = none)
    (hidx : likeIndexConflict st.likes
      { _id := newId, user := user, video := some video._id, comment := none, type := t } =
        false) :
    likeVideo st user id (some t.toString) newId =
      saveVideoCounters
        { st with
          likes := st.likes ++
            [{ _id := newId, user := user, video := some video._id, comment := none, type := t }] }
        { video with
          likes := if t = .like then video.likes + 1 else video.likes
          dislikes := if t = .dislike then video.dislikes + 1 else video.dislikes }
        (some t.toString) := by
  unfold likeVideo
  simp only [hv, he]
  cases t <;> simp_all [truthy, LikeType.toString, LikeType.ofString]

theorem likeVideo_insert_rejected (st : Store) (user : ObjectId) (id : String) (video : Video)
    (t : LikeType) (newId : ObjectId) (hv : st.findVideoById id = some (some video))
    (he : st.findVideoLike user video._id = none)
    (hidx : likeIndexConflict st.likes
      { _id := newId, user := user, video := some video._id, comment := none, type := t } =
        true) :
    likeVideo st user id (some t.toString) newId = (serverError, st) := by
  unfold likeVideo
  simp only [hv, he]
  cases t <;> simp_all [truthy, LikeType.toString, LikeType.ofString]

/-- The index check looks at the user, the video and the comment of the new
reaction only. -/
theorem likeIndexConflict_congr (likes : List Like) (a b : Like) (hu : a.user = b.user)
    (hv : a.video = b.video) (hc : a.comment = b.comment) :
    likeIndexConflict likes a = likeIndexConflict likes b := by
  unfold likeIndexConflict
  rw [hu, hv, hc]

theorem likeVideo_none (st : Store) (user : ObjectId) (id : String) (video : Video)
    (newId : ObjectId) (hv : st.findVideoById id = some (some video))
    (he : st.findVideoLike user video._id = none) :
    likeVideo st user id none newId = saveVideoCounters st video none := by
  unfold likeVideo
  simp only [hv, he, truthy]

theorem find_after_delete (likes : List Like) (user vid : ObjectId) (e : Like)
    (hid : UniqueLikeIds likes) (hu : UniqueVideoLikes likes)
    (he : likes.find? (fun l => l.user == user && l.video == some vid) = some e) :
    (deleteOne (fun l => l._id == e._id) likes).find?
      (fun l => l.user == user && l.video == some vid) = none := by
  obtain ⟨l1, l2, hl, hq, hq1, hi1, _⟩ := likes_split likes _ e hid he
  subst hl
  rw [deleteOne_append _ l1 l2 e hi1 (by simp)]
  simp only [Bool.and_eq_true, beq_iff_eq] at hq
  rw [List.find?_eq_none]
  intro x hx
  rcases List.mem_append.mp hx with h | h
  · simp [hq1 x h]
  · unfold UniqueVideoLikes at hu
    have hp := (List.pairwise_cons.mp (List.pairwise_append.mp hu).2.1).1 x h
    intro hqx
    simp only [Bool.and_eq_true, beq_iff_eq] at hqx
    exact hp ⟨by rw [hq.1, hqx.1], by simp [hq.2], by rw [hq.2, hqx.2]⟩

theorem find_after_update (likes : List Like) (user vid : ObjectId) (e : Like) (t : LikeType)
    (hid : UniqueLikeIds likes)
    (he : likes.find? (fun l => l.user == user && l.video == some vid) = some e) :
    (updateOne (fun l => l._id == e._id) (fun l => { l with type := t }) likes).find?
      (fun l => l.user == user && l.video == some vid) = some { e with type := t } := by
  obtain ⟨l1, l2, hl, hq, hq1, hi1, _⟩ := likes_split likes _ e hid he
  subst hl
  rw [updateOne_append _ _ l1 l2 e hi1 (by simp), List.find?_append,
    List.find?_eq_none.mpr (fun x hx => by simp [hq1 x hx])]
  simp only [Option.none_or]
  exact List.find?_cons_of_pos _ hq

theorem find_after_insert (likes : List Like) (user vid newId : ObjectId) (t : LikeType)
    (he : likes.find? (fun l => l.user == user && l.video == some vid) = none) :
    (likes ++
        [({ _id := newId, user := user, video := some vid, comment := none, type := t } : Like)]).find?
      (fun l => l.user == user && l.video == some vid) =
      some { _id := newId, user := user, video := some vid, comment := none, type := t } := by
  rw [List.find?_append, he]
  simp

theorem truthy_toString (t : LikeType) : truthy (some t.toString) = some t.toString := by
  cases t <;> rfl

theorem validStatus_cases (status : Option String) (h : validStatus status) :
    status = none ∨ ∃ t : LikeType, status = some t.toString := by
  rcases h with h | h | h
  · exact Or.inl h
  · exact Or.inr ⟨.like, h⟩
  · exact Or.inr ⟨.dislike, h⟩

/-- Repeating a request whose first call ended in `saveVideoCounters` and whose
second call takes the branch that writes nothing. -/
theorem repeat_noop (st0 s1 : Store) (user : ObjectId) (id : String) (video : Video)
    (a b : Int) (status : Option String) (n2 : ObjectId)
    (hv : st0.findVideoById id = some (some video)) (hvid : s1.videos = st0.videos)
    (h2 : ∀ s : Store, s.likes = s1.likes →
      s.findVideoById id = some (some { video with likes := a, dislikes := b }) →
      likeVideo s user id status n2 =
        saveVideoCounters s { video with likes := a, dislikes := b } status) :
    (likeVideo (saveVideoCounters s1 { video with likes := a, dislikes := b } status).2
        user id status n2).2 =
      (saveVideoCounters s1 { video with likes := a, dislikes := b } status).2 ∧
    (likeVideo (saveVideoCounters s1 { video with likes := a, dislikes := b } status).2
        user id status n2).1 =
      (saveVideoCounters s1 { video with likes := a, dislikes := b } status).1 := by
  have hv1 := saveVideoCounters_find st0 s1 id video a b status hvid hv
  rw [h2 (saveVideoCounters s1 { video with likes := a, dislikes := b } status).2 rfl hv1]
  exact ⟨saveVideoCounters_same _ id _ status hv1, rfl⟩

/-! ## Lemmas: the counter invariant -/

theorem countReactions_split (l1 l2 : List Like) (e : Like) (wid : ObjectId) (t : LikeType) :
    countReactions (l1 ++ e :: l2) wid t =
      countReactions l1 wid t + countReactions l2 wid t +
        (if e.video = some wid ∧ e.type = t then 1 else 0) := by
  unfold countReactions
  rw [List.countP_append, List.countP_cons]
  simp only [Bool.and_eq_true, beq_iff_eq]
  omega

theorem countReactions_append (l1 l2 : List Like) (wid : ObjectId) (t : LikeType) :
    countReactions (l1 ++ l2) wid t = countReactions l1 wid t + countReactions l2 wid t := by
  unfold countReactions
  rw [List.countP_append]

theorem countReactions_snoc (likes : List Like) (e : Like) (wid : ObjectId) (t : LikeType) :
    countReactions (likes ++ [e]) wid t =
      countReactions likes wid t + (if e.video = some wid ∧ e.type = t then 1 else 0) := by
  have h := countReactions_split likes [] e wid t
  simpa [countReactions] using h

theorem uniqueVideoLikes_map (a b : List Like)
    (h : a.map (fun l => (l.user, l.video)) = b.map (fun l => (l.user, l.video)))
    (ha : UniqueVideoLikes a) : UniqueVideoLikes b := by
  unfold UniqueVideoLikes at ha ⊢
  have key : ∀ l : List Like,
      l.Pairwise (fun x y => ¬ (x.user = y.user ∧ x.video.isSome = true ∧ x.video = y.video)) ↔
      (l.map (fun l => (l.user, l.video))).Pairwise
        (fun x y => ¬ (x.1 = y.1 ∧ x.2.isSome = true ∧ x.2 = y.2)) := by
    intro l
    rw [List.pairwise_map]
  rw [key] at ha ⊢
  rw [← h]
  exact ha

theorem videos_split (videos : List Video) (oid : ObjectId) (video : Video)
    (hnd : (videos.map Video._id).Nodup)
    (hf : videos.find? (fun v => v._id == oid) = some video) :
    ∃ v1 v2, videos = v1 ++ video :: v2 ∧ video._id = oid ∧
      (∀ x ∈ v1, x._id ≠ oid) ∧ (∀ x ∈ v2, x._id ≠ oid) := by
  obtain ⟨hq, v1, v2, hl, hno⟩ := List.find?_eq_some.mp hf
  have hid : video._id = oid := by simpa using hq
  subst hl
  refine ⟨v1, v2, rfl, hid, ?_, ?_⟩
  · intro x hx
    simpa using hno x hx
  · intro x hx heq
    rw [List.map_append, List.map_cons] at hnd
    have h2 := (List.nodup_cons.mp (List.nodup_append.mp hnd).2.1).1
    exact h2 (by rw [hid, ← heq]; exact List.mem_map_of_mem _ hx)

/-- Writing a video's counters next to a new content of the `likes` collection
keeps the store consistent when the new counters are the new counts and no
other video's counts moved. -/
theorem consistent_save (st : Store) (hc : Consistent st) (id : String) (video : Video)
    (hv : st.findVideoById id = some (some video)) (likes1 : List Like) (a b : Int)
    (status : Option String)
    (hids : UniqueLikeIds likes1) (huniq : UniqueVideoLikes likes1)
    (hother : ∀ wid t, wid ≠ video._id →
      countReactions likes1 wid t = countReactions st.likes wid t)
    (ha : a = countReactions likes1 video._id .like)
    (hb : b = countReactions likes1 video._id .dislike) :
    Consistent
      (saveVideoCounters { st with likes := likes1 } { video with likes := a, dislikes := b }
        status).2 := by
  obtain ⟨hvn, _, _, hcnt⟩ := hc
  obtain ⟨oid, _, hf, hoid⟩ := findVideoById_some st id video hv
  obtain ⟨v1, v2, hl, _, h1, h2⟩ := videos_split st.videos oid video hvn hf
  subst hoid
  have hupd : updateOne (fun w => w._id == video._id)
      (fun w => { w with likes := a, dislikes := b }) st.videos =
      v1 ++ { video with likes := a, dislikes := b } :: v2 := by
    rw [hl, updateOne_append _ _ v1 v2 video (fun x hx => by simpa using h1 x hx) (by simp)]
  refine ⟨?_, hids, huniq, ?_⟩
  · have hm := map_updateOne (fun w : Video => w._id == video._id)
      (fun w => { w with likes := a, dislikes := b }) Video._id (fun _ => rfl) st.videos
    show ((updateOne (fun w : Video => w._id == video._id)
      (fun w => { w with likes := a, dislikes := b }) st.videos).map Video._id).Nodup
    rw [hm]
    exact hvn
  · intro w hw
    have hw1 : w ∈ v1 ++ { video with likes := a, dislikes := b } :: v2 := by
      rw [← hupd]; exact hw
    rcases List.mem_append.mp hw1 with h | h
    · have hwv : w ∈ st.videos := by rw [hl]; exact List.mem_append_left _ h
      have := hcnt w hwv
      show w.likes = countReactions likes1 w._id .like ∧
        w.dislikes = countReactions likes1 w._id .dislike
      rw [hother _ _ (h1 w h), hother _ _ (h1 w h)]
      exact this
    · rcases List.mem_cons.mp h with h | h
      · subst h
        exact ⟨ha, hb⟩
      · have hwv : w ∈ st.videos := by
          rw [hl]; exact List.mem_append_right _ (List.mem_cons_of_mem _ h)
        have := hcnt w hwv
        show w.likes = countReactions likes1 w._id .like ∧
          w.dislikes = countReactions likes1 w._id .dislike
        rw [hother _ _ (h2 w h), hother _ _ (h2 w h)]
        exact this

theorem likeVideo_of_cast_error (st : Store) (user : ObjectId) (id : String)
    (status : Option String) (newId : ObjectId) (hv : st.findVideoById id = none) :
    likeVideo st user id status newId = (serverError, st) := by
  unfold likeVideo
  simp only [hv]

theorem likeVideo_of_not_found (st : Store) (user : ObjectId) (id : String)
    (status : Option String) (newId : ObjectId) (hv : st.findVideoById id = some none) :
    likeVideo st user id status newId = (jsonMessage 404 "Video not found", st) := by
  unfold likeVideo
  simp only [hv]

theorem decFloor_succ (n : Nat) : decFloor ((n + 1 : Nat) : Int) = (n : Int) := by
  unfold decFloor
  omega

/-- One call of the video reaction handler keeps the store consistent. -/
theorem consistent_likeVideo (st : Store) (hc : Consistent st) (user : ObjectId)
    (id : String) (status : Option String) (newId : ObjectId) (hs : validStatus status)
    (hfresh : newId ∉ st.likes.map Like._id) :
    Consistent (likeVideo st user id status newId).2 := by
  cases hv : st.findVideoById id with
  | none => rw [likeVideo_of_cast_error st user id status newId hv]; exact hc
  | some o =>
    cases o with
    | none => rw [likeVideo_of_not_found st user id status newId hv]; exact hc
    | some video =>
      have hc0 := hc
      obtain ⟨hvn, hid, hu, hcnt⟩ := hc
      obtain ⟨oid, _, hf, _⟩ := findVideoById_some st id video hv
      have hvc := hcnt video (List.mem_of_find?_eq_some hf)
      cases he : st.findVideoLike user video._id with
      | none =>
        rcases validStatus_cases status hs with rfl | ⟨t, rfl⟩
        · rw [likeVideo_none st user id video newId hv he, saveVideoCounters_same st id video _ hv]
          exact hc0
        · cases hidx : likeIndexConflict st.likes
              { _id := newId, user := user, video := some video._id, comment := none, type := t }
          · rw [likeVideo_insert st user id video t newId hv he hidx]
            have hnone : ∀ x ∈ st.likes, ¬ (x.user = user ∧ x.video = some video._id) := by
              intro x hx
              have := List.find?_eq_none.mp he x hx
              simpa using this
            apply consistent_save st hc0 id video hv
            · unfold UniqueLikeIds at hid ⊢
              rw [List.map_append, List.nodup_append]
              refine ⟨hid, by simp, ?_⟩
              intro a ha hb
              simp only [List.map_cons, List.map_nil, List.mem_singleton] at hb
              exact hfresh (hb ▸ ha)
            · unfold UniqueVideoLikes at hu ⊢
              rw [List.pairwise_append]
              refine ⟨hu, by simp, ?_⟩
              intro x hx y hy
              simp only [List.mem_singleton] at hy
              subst hy
              intro h
              exact hnone x hx ⟨h.1, h.2.2⟩
            · intro wid k hne
              rw [countReactions_snoc]
              have : ¬ (some video._id = some wid ∧ t = k) := by
                intro h
                exact hne (Option.some.inj h.1).symm
              rw [if_neg this, Nat.add_zero]
            · rw [countReactions_snoc, hvc.1]
              cases t <;> simp
            · rw [countReactions_snoc, hvc.2]
              cases t <;> simp
          · rw [likeVideo_insert_rejected st user id video t newId hv he hidx]
            exact hc0
      | some e =>
        obtain ⟨l1, l2, hl, hq, _, hi1, _⟩ := likes_split st.likes _ e hid he
        have hev : e.video = some video._id := by
          simp only [Bool.and_eq_true, beq_iff_eq] at hq
          exact hq.2
        have hlikes := hvc.1
        have hdislikes := hvc.2
        rw [hl, countReactions_split] at hlikes hdislikes
        rcases validStatus_cases status hs with rfl | ⟨t, rfl⟩
        · rw [likeVideo_remove st user id video e newId hv he]
          have hdel : deleteOne (fun l => l._id == e._id) st.likes = l1 ++ l2 := by
            rw [hl, deleteOne_append _ l1 l2 e hi1 (by simp)]
          rw [hdel]
          have hsub : (l1 ++ l2).Sublist st.likes := by
            rw [hl]
            exact List.Sublist.append (List.Sublist.refl _) (List.sublist_cons_self _ _)
          apply consistent_save st hc0 id video hv
          · exact List.Nodup.sublist (List.Sublist.map _ hsub) hid
          · exact List.Pairwise.sublist hsub hu
          · intro wid k hne
            rw [hl, countReactions_split, countReactions_append]
            have : ¬ (e.video = some wid ∧ e.type = k) := by
              intro h
              rw [hev] at h
              exact hne (Option.some.inj h.1).symm
            simp [this]
          · rw [countReactions_append, hlikes]
            cases hty : e.type
            · simp only [hev, hty, and_self, if_true]
              exact decFloor_succ _
            · simp [hev, hty]
          · rw [countReactions_append, hdislikes]
            cases hty : e.type
            · simp [hev, hty]
            · simp only [hev, hty, and_self, if_true]
              exact decFloor_succ _
        · by_cases hte : t = e.type
          · subst hte
            rw [likeVideo_same st user id video e newId hv he,
              saveVideoCounters_same st id video _ hv]
            exact hc0
          · rw [likeVideo_flip st user id video e t newId hv he hte]
            have hupd : updateOne (fun l => l._id == e._id) (fun l => { l with type := t })
                st.likes = l1 ++ { e with type := t } :: l2 := by
              rw [hl, updateOne_append _ _ l1 l2 e hi1 (by simp)]
            have hmapid := map_updateOne (fun l : Like => l._id == e._id)
              (fun l => { l with type := t }) Like._id (fun _ => rfl) st.likes
            have hmapkey := map_updateOne (fun l : Like => l._id == e._id)
              (fun l => { l with type := t }) (fun l => (l.user, l.video)) (fun _ => rfl)
              st.likes
            apply consistent_save st hc0 id video hv
            · unfold UniqueLikeIds at hid ⊢
              rw [hmapid]
              exact hid
            · exact uniqueVideoLikes_map _ _ hmapkey.symm hu
            · intro wid k hne
              rw [hupd, hl, countReactions_split, countReactions_split]
              have h1 : ¬ (e.video = some wid ∧ e.type = k) := by
                intro h
                rw [hev] at h
                exact hne (Option.some.inj h.1).symm
              have h2 : ¬ (e.video = some wid ∧ t = k) := by
                intro h
                rw [hev] at h
                exact hne (Option.some.inj h.1).symm
              simp [h1, h2]
            · rw [hupd, countReactions_split, hlikes]
              cases hty : e.type <;> cases t <;>
                first
                | exact absurd hty.symm hte
                | (simp only [hev, hty, true_and, if_true, if_false]
                   first | exact decFloor_succ _ | simp)
            · rw [hupd, countReactions_split, hdislikes]
              cases hty : e.type <;> cases t <;>
                first
                | exact absurd hty.symm hte
                | (simp only [hev, hty, true_and, if_true, if_false]
                   first | exact decFloor_succ _ | simp)

/-! ## Lemmas: uniqueness of reactions -/

theorem uniqueCommentLikes_map (a b : List Like)
    (h : a.map (fun l => (l.user, l.comment)) = b.map (fun l => (l.user, l.comment)))
    (ha : UniqueCommentLikes a) : UniqueCommentLikes b := by
  unfold UniqueCommentLikes at ha ⊢
  have key : ∀ l : List Like,
      l.Pairwise
        (fun x y => ¬ (x.user = y.user ∧ x.comment.isSome = true ∧ x.comment = y.comment)) ↔
      (l.map (fun l => (l.user, l.comment))).Pairwise
        (fun x y => ¬ (x.1 = y.1 ∧ x.2.isSome = true ∧ x.2 = y.2)) := by
    intro l
    rw [List.pairwise_map]
  rw [key] at ha ⊢
  rw [← h]
  exact ha

/-- What a call of the video reaction handler can do to the `likes`
collection, whatever the request. -/
theorem likeVideo_likes_cases (st : Store) (user : ObjectId) (id : String)
    (status : Option String) (newId : ObjectId) :
    (likeVideo st user id status newId).2.likes = st.likes ∨
    (∃ e : Like, (likeVideo st user id status newId).2.likes =
      deleteOne (fun l => l._id == e._id) st.likes) ∨
    (∃ (e : Like) (t : LikeType), (likeVideo st user id status newId).2.likes =
      updateOne (fun l => l._id == e._id) (fun l => { l with type := t }) st.likes) ∨
    (∃ (vid : ObjectId) (t : LikeType), st.findVideoLike user vid = none ∧
      (likeVideo st user id status newId).2.likes =
        st.likes ++ [{ _id := newId, user := user, video := some vid, comment := none,
                       type := t }]) := by
  cases hv : st.findVideoById id with
  | none => rw [likeVideo_of_cast_error st user id status newId hv]; exact Or.inl rfl
  | some o =>
    cases o with
    | none => rw [likeVideo_of_not_found st user id status newId hv]; exact Or.inl rfl
    | some video =>
      unfold likeVideo
      simp only [hv]
      cases he : st.findVideoLike user video._id with
      | none =>
        simp only []
        cases hts : truthy status with
        | none => exact Or.inl rfl
        | some s =>
          simp only []
          cases hof : LikeType.ofString s with
          | none => exact Or.inl rfl
          | some t =>
            simp only []
            split
            · exact Or.inl rfl
            · exact Or.inr (Or.inr (Or.inr ⟨video._id, t, he, rfl⟩))
      | some e =>
        simp only []
        cases hts : truthy status with
        | none => exact Or.inr (Or.inl ⟨e, rfl⟩)
        | some s =>
          simp only []
          by_cases hse : s = e.type.toString
          · rw [if_neg (by simp [hse])]
            exact Or.inl rfl
          · rw [if_pos hse]
            cases hof : LikeType.ofString s with
            | none => exact Or.inl rfl
            | some t => exact Or.inr (Or.inr (Or.inl ⟨e, t, rfl⟩))

/-- What a call of the comment like handler can do to the `likes` collection. -/
theorem likeComment_likes_cases (st : Store) (user : ObjectId) (id : String)
    (action : Option String) (newId : ObjectId) :
    (likeComment st user id action newId).2.likes = st.likes ∨
    (∃ e : Like, (likeComment st user id action newId).2.likes =
      deleteOne (fun l => l._id == e._id) st.likes) ∨
    (∃ cid : ObjectId, st.findCommentLike user cid = none ∧
      (likeComment st user id action newId).2.likes =
        st.likes ++ [{ _id := newId, user := user, video := none, comment := some cid,
                       type := .like }]) := by
  unfold likeComment
  cases hv : st.findCommentById id with
  | none => exact Or.inl rfl
  | some o =>
    cases o with
    | none => exact Or.inl rfl
    | some comment =>
      simp only []
      by_cases ha : action = some "like"
      · rw [if_pos ha]
        cases he : st.findCommentLike user comment._id with
        | none =>
          simp only []
          split
          · exact Or.inl rfl
          · exact Or.inr (Or.inr ⟨comment._id, he, rfl⟩)
        | some e => exact Or.inl rfl
      · rw [if_neg ha]
        by_cases hb : action = some "unlike"
        · rw [if_pos hb]
          cases he : st.findCommentLike user comment._id with
          | none => exact Or.inl rfl
          | some e => exact Or.inr (Or.inl ⟨e, rfl⟩)
        · rw [if_neg hb]
          exact Or.inl rfl

/-- One call of either reaction handler keeps both uniqueness constraints. -/
theorem unique_ledgerStep (st st1 : Store) (hstep : LedgerStep st st1)
    (hu : UniqueVideoLikes st.likes ∧ UniqueCommentLikes st.likes) :
    UniqueVideoLikes st1.likes ∧ UniqueCommentLikes st1.likes := by
  obtain ⟨hv, hcm⟩ := hu
  have hdel : ∀ e : Like,
      UniqueVideoLikes (deleteOne (fun l => l._id == e._id) st.likes) ∧
      UniqueCommentLikes (deleteOne (fun l => l._id == e._id) st.likes) := fun e =>
    ⟨List.Pairwise.sublist (deleteOne_sublist _ _) hv,
     List.Pairwise.sublist (deleteOne_sublist _ _) hcm⟩
  cases hstep with
  | video user id status newId =>
    rcases likeVideo_likes_cases st user id status newId with h | ⟨e, h⟩ | ⟨e, t, h⟩ |
      ⟨vid, t, hnone, h⟩
    · rw [h]; exact ⟨hv, hcm⟩
    · rw [h]; exact hdel e
    · rw [h]
      exact ⟨uniqueVideoLikes_map _ _
          (map_updateOne (fun l : Like => l._id == e._id) (fun l => { l with type := t })
            (fun l => (l.user, l.video)) (fun _ => rfl) st.likes).symm hv,
        uniqueCommentLikes_map _ _
          (map_updateOne (fun l : Like => l._id == e._id) (fun l => { l with type := t })
            (fun l => (l.user, l.comment)) (fun _ => rfl) st.likes).symm hcm⟩
    · rw [h]
      have hno : ∀ x ∈ st.likes, ¬ (x.user = user ∧ x.video = some vid) := by
        intro x hx
        have := List.find?_eq_none.mp hnone x hx
        simpa using this
      constructor
      · unfold UniqueVideoLikes at hv ⊢
        rw [List.pairwise_append]
        refine ⟨hv, by simp, ?_⟩
        intro x hx y hy
        simp only [List.mem_singleton] at hy
        subst hy
        intro hxy
        exact hno x hx ⟨hxy.1, hxy.2.2⟩
      · unfold UniqueCommentLikes at hcm ⊢
        rw [List.pairwise_append]
        refine ⟨hcm, by simp, ?_⟩
        intro x hx y hy
        simp only [List.mem_singleton] at hy
        subst hy
        intro hxy
        have h1 := hxy.2.1
        rw [hxy.2.2] at h1
        simp at h1
  | comment user id action newId =>
    rcases likeComment_likes_cases st user id action newId with h | ⟨e, h⟩ | ⟨cid, hnone, h⟩
    · rw [h]; exact ⟨hv, hcm⟩
    · rw [h]; exact hdel e
    · rw [h]
      have hno : ∀ x ∈ st.likes, ¬ (x.user = user ∧ x.comment = some cid) := by
        intro x hx
        have := List.find?_eq_none.mp hnone x hx
        simpa using this
      constructor
      · unfold UniqueVideoLikes at hv ⊢
        rw [List.pairwise_append]
        refine ⟨hv, by simp, ?_⟩
        intro x hx y hy
        simp only [List.mem_singleton] at hy
        subst hy
        intro hxy
        have h1 := hxy.2.1
        rw [hxy.2.2] at h1
        simp at h1
      · unfold UniqueCommentLikes at hcm ⊢
        rw [List.pairwise_append]
        refine ⟨hcm, by simp, ?_⟩
        intro x hx y hy
        simp only [List.mem_singleton] at hy
        subst hy
        intro hxy
        exact hno x hx ⟨hxy.1, hxy.2.2⟩

/-! ## Lemmas: the comment like handler -/

theorem findCommentById_some (st : Store) (id : String) (comment : Comment)
    (h : st.findCommentById id = some (some comment)) :
    ∃ oid, castObjectId id = some oid ∧
      st.comments.find? (fun c => c._id == oid) = some comment ∧ comment._id = oid := by
  unfold Store.findCommentById at h
  cases hc : castObjectId id with
  | none => simp [hc] at h
  | some oid =>
    simp only [hc, Option.map_some', Option.some.injEq] at h
    refine ⟨oid, rfl, h, ?_⟩
    have := List.find?_some h
    simpa using this

theorem saveCommentLikes_find (st st1 : Store) (id : String) (comment : Comment) (a : Int)
    (hcs : st1.comments = st.comments)
    (hc : st.findCommentById id = some (some comment)) :
    (saveCommentLikes st1 { comment with likes := a }).findCommentById id =
      some (some { comment with likes := a }) := by
  obtain ⟨oid, hcast, hf, hid⟩ := findCommentById_some st id comment hc
  subst hid
  have h := find?_updateOne (fun c : Comment => c._id == comment._id)
    (fun c => { c with likes := a }) (fun _ => rfl) st.comments
  unfold saveCommentLikes Store.findCommentById
  simp only [hcast, Option.map_some', hcs]
  rw [h, hf]
  rfl

theorem likeComment_like_new (st : Store) (user : ObjectId) (id : String)
    (comment : Comment) (newId : ObjectId)
    (hc : st.findCommentById id = some (some comment))
    (he : st.findCommentLike user comment._id = none)
    (hidx : likeIndexConflict st.likes
      { _id := newId, user := user, video := none, comment := some comment._id,
        type := .like } = false) :
    likeComment st user id (some "like") newId =
      ({ status := 200, headers := [], body := .commentLikes (comment.likes + 1) },
       saveCommentLikes
         { st with
           likes := st.likes ++ [{ _id := newId, user := user, video := none,
                                   comment := some comment._id, type := .like }] }
         { comment with likes := comment.likes + 1 }) := by
  unfold likeComment
  simp only [hc, he, if_true, hidx, Bool.false_eq_true, if_false]

theorem likeComment_like_rejected (st : Store) (user : ObjectId) (id : String)
    (comment : Comment) (newId : ObjectId)
    (hc : st.findCommentById id = some (some comment))
    (he : st.findCommentLike user comment._id = none)
    (hidx : likeIndexConflict st.likes
      { _id := newId, user := user, video := none, comment := some comment._id,
        type := .like } = true) :
    likeComment st user id (some "like") newId = (serverError, st) := by
  unfold likeComment
  simp only [hc, he, if_true, hidx]

theorem likeComment_unlike_existing (st : Store) (user : ObjectId) (id : String)
    (comment : Comment) (e : Like) (newId : ObjectId)
    (hc : st.findCommentById id = some (some comment))
    (he : st.findCommentLike user comment._id = some e) :
    likeComment st user id (some "unlike") newId =
      ({ status := 200, headers := [], body := .commentLikes (decFloor comment.likes) },
       saveCommentLikes { st with likes := deleteOne (fun l => l._id == e._id) st.likes }
         { comment with likes := decFloor comment.likes }) := by
  have hne : ¬ ((some "unlike" : Option String) = some "like") := by decide
  unfold likeComment
  simp only [hc, he, hne, if_true, if_false]

/-! ## Lemmas: subscriptions -/

/-- A found document splits its collection; with unique keys no other document
carries its key. -/
theorem find_split {α : Type} (key : α → ObjectId) (l : List α) (q : α → Bool) (e : α)
    (hid : (l.map key).Nodup) (hfind : l.find? q = some e) :
    ∃ l1 l2, l = l1 ++ e :: l2 ∧ q e = true ∧ (∀ x ∈ l1, q x = false) ∧
      (∀ x ∈ l1, key x ≠ key e) ∧ (∀ x ∈ l2, key x ≠ key e) := by
  obtain ⟨hq, l1, l2, hl, hno⟩ := List.find?_eq_some.mp hfind
  subst hl
  refine ⟨l1, l2, rfl, hq, ?_, ?_, ?_⟩
  · intro x hx
    simpa using hno x hx
  · intro x hx heq
    rw [List.map_append, List.map_cons] at hid
    exact (List.nodup_append.mp hid).2.2 (List.mem_map_of_mem _ hx)
      (heq ▸ List.mem_cons_self _ _)
  · intro x hx heq
    rw [List.map_append, List.map_cons] at hid
    exact (List.nodup_cons.mp (List.nodup_append.mp hid).2.1).1
      (heq ▸ List.mem_map_of_mem _ hx)

/-- A document found by a predicate splits its collection at the first match. -/
theorem find_split_first {α : Type} (l : List α) (q : α → Bool) (e : α)
    (hfind : l.find? q = some e) :
    ∃ l1 l2, l = l1 ++ e :: l2 ∧ q e = true ∧ ∀ x ∈ l1, q x = false := by
  obtain ⟨hq, l1, l2, hl, hno⟩ := List.find?_eq_some.mp hfind
  exact ⟨l1, l2, hl, hq, fun x hx => by simpa using hno x hx⟩

theorem subscribe_success (st : Store) (user : ObjectId) (cid : String) (oid : ObjectId)
    (creator : User) (newId : ObjectId) (hne : cid ≠ "")
    (hc : castObjectId cid = some oid)
    (hu : st.users.find? (fun u => u._id == oid) = some creator)
    (hself : ObjectId.toString user ≠ cid)
    (hsub : st.subscriptions.find? (fun x => x.subscriber == user && x.creator == oid) = none) :
    subscribe st user (some cid) newId =
      ({ status := 201, headers := [],
         body := .subscribed "Subscribed successfully"
           { _id := newId, subscriber := user, creator := oid } },
       { st with
         subscriptions := st.subscriptions ++ [{ _id := newId, subscriber := user, creator := oid }]
         users := updateOne (fun u => u._id == creator._id)
           (fun u => { u with subscribersCount := creator.subscribersCount + 1 }) st.users }) := by
  unfold subscribe
  simp only [truthy, hne, if_false, hc, hu, hself, hsub]

/-- Every call of the subscribe handler either answers with a status other
than 201 and leaves the store as it was, or is a success on a resolved
creator. -/
theorem subscribe_cases (st : Store) (user : ObjectId) (creatorId : Option String)
    (newId : ObjectId) :
    ((subscribe st user creatorId newId).1.status ≠ 201 ∧
      (subscribe st user creatorId newId).2 = st) ∨
    ∃ cid oid creator, creatorId = some cid ∧ cid ≠ "" ∧ castObjectId cid = some oid ∧
      st.users.find? (fun u => u._id == oid) = some creator ∧
      ObjectId.toString user ≠ cid ∧
      st.subscriptions.find? (fun x => x.subscriber == user && x.creator == oid) = none := by
  unfold subscribe
  cases creatorId with
  | none => left; simp [truthy, jsonMessage]
  | some cid =>
    by_cases hne : cid = ""
    · left; simp [truthy, hne, jsonMessage]
    · simp only [truthy, hne, if_false]
      cases hc : castObjectId cid with
      | none => left; simp [serverError, jsonMessage]
      | some oid =>
        simp only []
        cases hu : st.users.find? (fun u => u._id == oid) with
        | none => left; simp [jsonMessage]
        | some creator =>
          simp only []
          by_cases hself : ObjectId.toString user = cid
          · left; simp [hself, jsonMessage]
          · simp only [hself, if_false]
            cases hsub : st.subscriptions.find?
                (fun x => x.subscriber == user && x.creator == oid) with
            | some e => left; simp [jsonMessage]
            | none => right; exact ⟨cid, oid, creator, rfl, hne, hc, hu, hself, hsub⟩

/-! ## Lemmas: watch history -/

theorem recordView_insert (st : Store) (user : ObjectId) (vid : String) (oid : ObjectId)
    (now : Nat) (newId : ObjectId) (hne : vid ≠ "") (hc : castObjectId vid = some oid)
    (hf : st.histories.find? (fun h => h.user == user && h.video == oid) = none) :
    recordView st user (some vid) now newId =
      ({ status := 201, headers := [],
         body := .history { _id := newId, user := user, video := oid, watchedAt := now } },
       { st with
         histories := st.histories ++
           [{ _id := newId, user := user, video := oid, watchedAt := now }] }) := by
  unfold recordView
  simp only [truthy, hne, if_false, hc, hf]

theorem recordView_update (st : Store) (user : ObjectId) (vid : String) (oid : ObjectId)
    (now : Nat) (newId : ObjectId) (e : History) (hne : vid ≠ "")
    (hc : castObjectId vid = some oid)
    (hf : st.histories.find? (fun h => h.user == user && h.video == oid) = some e) :
    recordView st user (some vid) now newId =
      ({ status := 200, headers := [], body := .history { e with watchedAt := now } },
       { st with
         histories := updateOne (fun h => h._id == e._id)
           (fun h => { h with watchedAt := now }) st.histories }) := by
  unfold recordView
  simp only [truthy, hne, if_false, hc, hf]

theorem uniqueHistory_map (a b : List History)
    (h : a.map (fun x => (x.user, x.video)) = b.map (fun x => (x.user, x.video)))
    (ha : UniqueHistory a) : UniqueHistory b := by
  unfold UniqueHistory at ha ⊢
  have key : ∀ l : List History,
      l.Pairwise (fun x y => ¬ (x.user = y.user ∧ x.video = y.video)) ↔
      (l.map (fun x => (x.user, x.video))).Pairwise
        (fun x y => ¬ (x.1 = y.1 ∧ x.2 = y.2)) := by
    intro l
    rw [List.pairwise_map]
  rw [key] at ha ⊢
  rw [← h]
  exact ha

/-- Every request keeps the unique index of the `histories` collection. -/
theorem uniqueHistory_step (st st1 : Store) (hstep : HistoryStep st st1)
    (hu : UniqueHistory st.histories) : UniqueHistory st1.histories := by
  cases hstep with
  | record user videoId now newId =>
    unfold recordView
    cases hv : truthy videoId with
    | none => exact hu
    | some vid =>
      simp only []
      cases hc : castObjectId vid with
      | none => exact hu
      | some oid =>
        simp only []
        cases hf : st.histories.find? (fun h => h.user == user && h.video == oid) with
        | some e =>
          exact uniqueHistory_map _ _
            (map_updateOne (fun h : History => h._id == e._id)
              (fun h => { h with watchedAt := now }) (fun x => (x.user, x.video))
              (fun _ => rfl) st.histories).symm hu
        | none =>
          show UniqueHistory (st.histories ++ [_])
          unfold UniqueHistory at hu ⊢
          rw [List.pairwise_append]
          refine ⟨hu, by simp, ?_⟩
          intro x hx y hy
          simp only [List.mem_singleton] at hy
          subst hy
          intro hxy
          have := List.find?_eq_none.mp hf x hx
          simp only [Bool.and_eq_true, beq_iff_eq] at this
          exact this hxy
  | clear user => exact List.Pairwise.sublist (List.filter_sublist _) hu
  | remove user videoId =>
    unfold removeFromHistory
    cases hc : castObjectId videoId with
    | none => exact hu
    | some oid => exact List.Pairwise.sublist (deleteOne_sublist _ _) hu
  | other _ h => rw [h]; exact hu

/-! ## Lemmas: which handlers write the `videos` collection -/

theorem saveVideoCounters_views (st : Store) (video : Video) (status : Option String) :
    (saveVideoCounters st video status).2.videos.map Video.views = st.videos.map Video.views :=
  map_updateOne (fun w : Video => w._id == video._id)
    (fun w => { w with likes := video.likes, dislikes := video.dislikes }) Video.views
    (fun _ => rfl) st.videos

theorem likeVideo_views (st : Store) (user : ObjectId) (id : String) (status : Option String)
    (newId : ObjectId) :
    (likeVideo st user id status newId).2.videos.map Video.views =
      st.videos.map Video.views := by
  unfold likeVideo
  repeat' first
    | split
    | (simp only []; split)
  all_goals first
    | rfl
    | exact saveVideoCounters_views _ _ _

theorem likeComment_videos (st : Store) (user : ObjectId) (id : String)
    (action : Option String) (newId : ObjectId) :
    (likeComment st user id action newId).2.videos = st.videos := by
  unfold likeComment
  cases st.findCommentById id with
  | none => rfl
  | some o =>
    cases o with
    | none => rfl
    | some c =>
      simp only []
      split
      · cases st.findCommentLike user c._id with
        | none =>
          simp only []
          split <;> rfl
        | some e => rfl
      · split
        · cases st.findCommentLike user c._id <;> rfl
        · rfl

theorem subscribe_videos (st : Store) (user : ObjectId) (creatorId : Option String)
    (newId : ObjectId) : (subscribe st user creatorId newId).2.videos = st.videos := by
  unfold subscribe
  repeat' split
  all_goals rfl

theorem unsubscribe_videos (st : Store) (user : ObjectId) (creatorId : String) :
    (unsubscribe st user creatorId).2.videos = st.videos := by
  unfold unsubscribe
  cases castObjectId creatorId with
  | none => rfl
  | some oid =>
    simp only []
    cases st.subscriptions.find? (fun x => x.subscriber == user && x.creator == oid) with
    | none => rfl
    | some e =>
      simp only []
      cases st.users.find? (fun u => u._id == oid) <;> rfl

theorem recordView_videos (st : Store) (user : ObjectId) (videoId : Option String)
    (now : Nat) (newId : ObjectId) :
    (recordView st user videoId now newId).2.videos = st.videos := by
  unfold recordView
  repeat' split
  all_goals rfl

theorem deleteComment_videos (st : Store) (user : ObjectId) (id : String) :
    (deleteComment st user id).2.videos = st.videos := by
  unfold deleteComment
  repeat' split
  all_goals rfl

theorem getVideoWith_none (st : Store) (id : String) (authorization : Option String)
    (video : Video) (hv : st.findVideoById id = some (some video)) :
    getVideoWith none st id authorization =
      ({ status := 200, headers := []
         body := .video { video with views := video.views + 1 } none none },
       { st with
         videos := updateOne (fun w => w._id == video._id)
           (fun w => { w with views := video.views + 1 }) st.videos }) := by
  unfold getVideoWith
  simp only [hv]
  cases truthy authorization <;> rfl

/-! ## Lemmas: deletions -/

/-- The account deletion reads the user's subscriptions after it has deleted
them, so the loop over them has nothing to visit: the user records are only
rid of the deleted user. -/
theorem deleteAccount_users (st : Store) (user : ObjectId) :
    (deleteAccount st user).2.users = deleteOne (fun u => u._id == user) st.users := by
  have hempty : (st.subscriptions.filter
      fun x => !(x.subscriber == user || x.creator == user)).filter
      (fun x => x.subscriber == user) = [] := by
    rw [List.filter_eq_nil_iff]
    intro x hx
    have := (List.mem_filter.mp hx).2
    simp only [Bool.not_eq_true', Bool.or_eq_false_iff] at this
    simp [this.1]
  unfold deleteAccount
  simp only [hempty, lowerCreatorCounts]

theorem deleteAccount_cascades (st : Store) (user : ObjectId) :
    (∀ v ∈ (deleteAccount st user).2.videos, v.creator ≠ user) ∧
    (∀ x ∈ (deleteAccount st user).2.subscriptions, x.subscriber ≠ user ∧ x.creator ≠ user) ∧
    (deleteAccount st user).2.comments = st.comments ∧
    (deleteAccount st user).2.likes = st.likes ∧
    (deleteAccount st user).2.histories = st.histories := by
  refine ⟨?_, ?_, rfl, rfl, rfl⟩
  · intro v hv
    have : v ∈ st.videos.filter (fun v => !(v.creator == user)) := hv
    simpa using (List.mem_filter.mp this).2
  · intro x hx
    have : x ∈ st.subscriptions.filter
        (fun x => !(x.subscriber == user || x.creator == user)) := hx
    simpa using (List.mem_filter.mp this).2

theorem deleteComment_cascades (st : Store) (user : ObjectId) (id : String) (comment : Comment)
    (hc : st.findCommentById id = some (some comment))
    (hok : (deleteComment st user id).1.status = 200) :
    ∀ l ∈ (deleteComment st user id).2.likes, l.comment ≠ some comment._id := by
  unfold deleteComment at hok ⊢
  simp only [hc] at hok ⊢
  split at hok
  · simp [jsonMessage] at hok
  · rename_i h
    rw [if_neg h]
    intro l hl
    have : l ∈ st.likes.filter (fun l => !(l.comment == some comment._id)) := hl
    simpa using (List.mem_filter.mp this).2

/-! ## Lemmas: related videos -/

theorem relatedQuery_iff (video w : Video) :
    relatedQuery video w = true ↔
      w._id ≠ video._id ∧ w.isPrivate = false ∧
        (video.category = "" ∨ w.category = video.category ∨ w.creator = video.creator) := by
  unfold relatedQuery
  by_cases hc : video.category = ""
  · simp [hc]
  · simp [hc, and_assoc]

theorem byViewsDesc_sorted (l : List Video) :
    (l.insertionSort byViewsDesc).Pairwise byViewsDesc := by
  haveI : IsTotal Video byViewsDesc := ⟨fun a b => by
    unfold byViewsDesc
    exact Int.le_total b.views a.views⟩
  haveI : IsTrans Video byViewsDesc := ⟨fun a b c hab hbc => by
    unfold byViewsDesc at *
    exact Int.le_trans hbc hab⟩
  exact List.sorted_insertionSort byViewsDesc l

/-! ## Lemmas: route dispatch -/

theorem firstMatch_some (routes : List (VideosGet × List Segment)) (segments : List (List Char))
    (route : VideosGet) (params : List (String × String))
    (h : firstMatch routes segments = some (route, params)) :
    ∃ pattern, (route, pattern) ∈ routes ∧ matchSegments pattern segments = some params := by
  induction routes with
  | nil => simp [firstMatch] at h
  | cons r rest ih =>
    obtain ⟨name, pattern⟩ := r
    unfold firstMatch at h
    cases hm : matchSegments pattern segments with
    | none =>
      simp only [hm] at h
      obtain ⟨p, hp, hmp⟩ := ih h
      exact ⟨p, List.mem_cons_of_mem _ hp, hmp⟩
    | some ps =>
      simp only [hm, Option.some.injEq, Prod.mk.injEq] at h
      obtain ⟨rfl, rfl⟩ := h
      exact ⟨pattern, List.mem_cons_self _ _, hm⟩

theorem match_subscriptions_literal (segments : List (List Char))
    (params : List (String × String))
    (h : matchSegments [.lit "subscriptions"] segments = some params) :
    ∃ seg, segments = [seg] ∧ seg ≠ [] := by
  cases segments with
  | nil => simp [matchSegments] at h
  | cons seg rest =>
    unfold matchSegments at h
    split at h
    · rename_i hlow
      cases rest with
      | nil =>
        refine ⟨seg, rfl, ?_⟩
        intro hnil
        rw [hnil] at hlow
        exact absurd hlow (by decide)
      | cons t ts => simp [matchSegments] at h
    · simp at h

theorem firstMatch_single (seg : List Char) (hne : seg ≠ []) :
    firstMatch videosGetRoutes [seg] = some (.detail, [("id", String.mk seg)]) := by
  simp [videosGetRoutes, firstMatch, matchSegments, hne]

/-- No request path is dispatched to the handler registered for
`/subscriptions`: a path that matches it has one non-empty segment, and such a
path is taken by `/:id`, registered before it. -/
theorem dispatchGet_never_subscriptions (path : String) (params : List (String × String)) :
    dispatchGet path ≠ some (.subscriptions, params) := by
  intro h
  unfold dispatchGet at h
  cases hseg : pathSegments path with
  | none => simp [hseg] at h
  | some segments =>
    simp only [hseg] at h
    obtain ⟨pattern, hmem, hmatch⟩ := firstMatch_some _ _ _ _ h
    have hp : pattern = [.lit "subscriptions"] := by
      simp [videosGetRoutes] at hmem
      exact hmem
    rw [hp] at hmatch
    obtain ⟨seg, rfl, hne⟩ := match_subscriptions_literal segments params hmatch
    rw [firstMatch_single seg hne] at h
    simp at h

/-! ## Range streaming -/

/-- C1: for a stored video file and a header `bytes=<start>-<end>` or
`bytes=<start>-` in decimal with `start ≤ end < size` (`end` defaulting to
`size - 1`), the stream handler answers 206 with `Content-Range`
`bytes <start>-<end>/<size>`, `Accept-Ranges: bytes`, `Content-Length`
`end - start + 1`, and the body is exactly the file's bytes at positions
`start .. end`, so it has `end - start + 1` bytes. The size is one `fs.stat`
can report exactly (at most `2 ^ 53`). -/
theorem stream_valid_range (st : Store) (id : String) (video : Video) (file : List Byte)
    (start : Nat) (stop : Option Nat)
    (hv : st.findVideoById id = some (some video))
    (hf : st.statVideoFile video.fileName = some file)
    (hsize : file.length ≤ 2 ^ 53)
    (hle : start ≤ stop.getD (file.length - 1))
    (hlt : stop.getD (file.length - 1) < file.length) :
    streamVideo st id (some (rangeHeader start stop)) =
      { status := 206
        headers :=
          [("Content-Range",
              "bytes " ++ natToString start ++ "-" ++
                natToString (stop.getD (file.length - 1)) ++ "/" ++ natToString file.length),
           ("Accept-Ranges", "bytes"),
           ("Content-Length", natToString (stop.getD (file.length - 1) - start + 1)),
           ("Content-Type", "video/mp4")]
        body := .stream ((file.drop start).take (stop.getD (file.length - 1) - start + 1)) } ∧
    ((file.drop start).take (stop.getD (file.length - 1) - start + 1)).length =
      stop.getD (file.length - 1) - start + 1 ∧
    ∀ i, i < stop.getD (file.length - 1) - start + 1 →
      ((file.drop start).take (stop.getD (file.length - 1) - start + 1))[i]? =
        file[start + i]? := by
  generalize he : stop.getD (file.length - 1) = e at hle hlt ⊢
  have hpos : 0 < file.length := by omega
  have hpr := parseRange_rangeHeader start stop file.length hpos
  rw [he] at hpr
  have hchunk : chunkSizeOf (.int (e : Int)) (.int (start : Int)) =
      .int ((e - start + 1 : Nat) : Int) := by
    simp only [chunkSizeOf]
    congr 1
    omega
  refine ⟨?_, ?_, ?_⟩
  · rw [streamVideo_range st id video file _ hv hf (rangeHeader_ne_empty start stop), hpr]
    simp only [createReadStream_nat file start e hle (by omega), hchunk, Num.toString_natCast]
  · simp only [List.length_take, List.length_drop]
    omega
  · intro i hi
    rw [List.getElem?_take_of_lt hi, List.getElem?_drop]

/-- C1, the scenario of the spec: `bytes=0-99` on a 1000-byte file gives 206,
`Content-Range: bytes 0-99/1000` and a body of 100 bytes. -/
theorem stream_valid_range_witness :
    streamVideo streamStore "000000000000000000000001" (some "bytes=0-99") =
      { status := 206
        headers :=
          [("Content-Range", "bytes 0-99/1000"), ("Accept-Ranges", "bytes"),
           ("Content-Length", "100"), ("Content-Type", "video/mp4")]
        body := .stream (List.replicate 100 0) } ∧
    (List.replicate 100 (0 : Byte)).length = 100 := by
  have hlen : (List.replicate 1000 (0 : Byte)).length = 1000 := List.length_replicate _ _
  have h := stream_valid_range streamStore "000000000000000000000001"
    (sampleVideo 1 "a.mp4" 2) (List.replicate 1000 0) 0 (some 99)
    (by decide) rfl (by rw [hlen]; norm_num) (by rw [hlen]; decide) (by rw [hlen]; decide)
  refine ⟨?_, List.length_replicate _ _⟩
  have e1 : rangeHeader 0 (some 99) = "bytes=0-99" := by decide
  have e2 : (List.drop 0 (List.replicate 1000 (0 : Byte))).take 100 = List.replicate 100 0 := by
    rw [List.drop_zero, List.take_replicate]
    rfl
  have h1 := h.1
  rw [e1, hlen] at h1
  rw [h1]
  simp only [Option.getD_some, Nat.sub_zero]
  rw [e2]
  decide

/-- C2, refuted as stated: `bytes=2000-3000` on a 1000-byte file is malformed
(`start ≥ size`), yet the handler answers 206, not 416. -/
theorem malformed_range_answered_206 :
    rangeMalformed "bytes=2000-3000" 1000 = true ∧
    (streamVideo streamStore "000000000000000000000001" (some "bytes=2000-3000")).status = 206 ∧
    (streamVideo streamStore "000000000000000000000001" (some "bytes=2000-3000")).status ≠ 416 := by
  decide

/-- C2, amended: for a non-empty malformed `Range` header the handler sends no
file bytes and never answers 416. It answers `500 Server error` when `start` is
not a number or `start > end` (the read stream rejects the offsets), and
otherwise either that or 206 with an empty body; it is 206 with
`Content-Range: bytes <start>-<end>/<size>` and an empty body when
`size ≤ start ≤ end ≤ MAX_SAFE_INTEGER`. -/
theorem stream_malformed_range (st : Store) (id : String) (video : Video) (file : List Byte)
    (r : String) (hv : st.findVideoById id = some (some video))
    (hf : st.statVideoFile video.fileName = some file) (hr : r ≠ "")
    (hm : rangeMalformed r file.length = true) :
    (streamVideo st id (some r)).status ≠ 416 ∧
    (streamVideo st id (some r) = serverError ∨
      ((streamVideo st id (some r)).status = 206 ∧
        (streamVideo st id (some r)).body = .stream [])) ∧
    ((parseRange r file.length).1 = .nan → streamVideo st id (some r) = serverError) ∧
    (∀ s e : Int, parseRange r file.length = (.int s, .int e) → e < s →
      streamVideo st id (some r) = serverError) ∧
    (∀ s e : Nat, parseRange r file.length = (.int (s : Int), .int (e : Int)) →
      file.length ≤ s → s ≤ e → e < 2 ^ 53 →
      streamVideo st id (some r) =
        { status := 206
          headers :=
            [("Content-Range",
                "bytes " ++ natToString s ++ "-" ++ natToString e ++ "/" ++
                  natToString file.length),
             ("Accept-Ranges", "bytes"),
             ("Content-Length", natToString (e - s + 1)),
             ("Content-Type", "video/mp4")]
          body := .stream [] }) := by
  rw [streamVideo_range st id video file r hv hf hr]
  unfold rangeMalformed at hm
  generalize parseRange r file.length = p at hm ⊢
  obtain ⟨a, b⟩ := p
  have hnan : ∀ x, createReadStream file .nan x = none := by
    intro x; simp [createReadStream, validStreamOffset]
  have hnan2 : ∀ x, createReadStream file x .nan = none := by
    intro x; cases h : validStreamOffset x <;> simp [createReadStream, validStreamOffset, h]
  have hgt : ∀ s e : Int, e < s → createReadStream file (.int s) (.int e) = none := by
    intro s e hlt
    unfold createReadStream
    cases h1 : validStreamOffset (.int s) with
    | none => rfl
    | some s1 =>
      cases h2 : validStreamOffset (.int e) with
      | none => rfl
      | some e1 =>
        simp only [validStreamOffset] at h1 h2
        split at h1 <;> simp at h1
        split at h2 <;> simp at h2
        have : ¬ s1 ≤ e1 := by omega
        simp [this]
  have hpast : ∀ (s : Int) (e : Num) bytes, (file.length : Int) ≤ s →
      createReadStream file (.int s) e = some bytes → bytes = [] := by
    intro s e bytes hs hc
    unfold createReadStream at hc
    cases h1 : validStreamOffset (.int s) with
    | none => simp [h1] at hc
    | some s1 =>
      cases h2 : validStreamOffset e with
      | none => simp [h1, h2] at hc
      | some e1 =>
        simp only [h1, h2] at hc
        simp only [validStreamOffset] at h1
        split at h1 <;> simp at h1
        split at hc
        · have hd : List.drop s1 file = [] := List.drop_eq_nil_of_le (by omega)
          simp only [hd, List.take_nil, Option.some.injEq] at hc
          exact hc.symm
        · simp at hc
  refine ⟨?_, ?_, ?_, ?_, ?_⟩
  · cases h : createReadStream file a b <;> simp [serverError, jsonMessage]
  · cases a with
    | nan => left; simp [hnan]
    | int s =>
      cases h : createReadStream file (.int s) b with
      | none => left; rfl
      | some bytes =>
        right
        have hs : (file.length : Int) ≤ s := by
          cases b with
          | nan => simpa using hm
          | int e =>
            simp only [Bool.or_eq_true, decide_eq_true_eq] at hm
            rcases hm with hm | hm
            · rw [hgt s e hm] at h; simp at h
            · exact hm
        have := hpast s b bytes hs h
        simp [this]
  · intro ha
    simp only at ha
    subst ha
    simp [hnan]
  · intro s e hp hlt
    simp only [Prod.mk.injEq] at hp
    obtain ⟨rfl, rfl⟩ := hp
    simp [hgt s e hlt]
  · intro s e hp hs hse he
    simp only [Prod.mk.injEq] at hp
    obtain ⟨rfl, rfl⟩ := hp
    have hd : List.drop s file = [] := List.drop_eq_nil_of_le hs
    have hchunk : chunkSizeOf (.int (e : Int)) (.int (s : Int)) =
        .int ((e - s + 1 : Nat) : Int) := by
      simp only [chunkSizeOf]
      congr 1
      omega
    simp only [createReadStream_nat file s e hse he, hchunk, Num.toString_natCast, hd,
      List.take_nil]

/-- C2, amended, at a concrete input: `bytes=2000-3000` on the 1000-byte file is
answered 206 with an empty body, not 416. -/
theorem stream_malformed_range_witness :
    (streamVideo streamStore "000000000000000000000001" (some "bytes=2000-3000")).status ≠ 416 ∧
    (streamVideo streamStore "000000000000000000000001" (some "bytes=2000-3000")).body =
      .stream [] := by
  have hlen : (List.replicate 1000 (0 : Byte)).length = 1000 := List.length_replicate _ _
  have h := stream_malformed_range streamStore "000000000000000000000001"
    (sampleVideo 1 "a.mp4" 2) (List.replicate 1000 0) "bytes=2000-3000"
    (by decide) rfl (by decide) (by rw [hlen]; decide)
  refine ⟨h.1, ?_⟩
  rcases h.2.1 with h1 | h1
  · exact absurd h1 (by decide)
  · exact h1.2

/-! ## The reaction ledger -/

/-- C3: the video reaction handler is idempotent. On a store satisfying the
constraints of the `likes` collection (unique ids, one reaction per user and
video), for an existing video and a status among `like`, `dislike`, none, a
second call with the same status leaves the whole store as the first call left
it and returns the same response. That response is 200 with the counters,
except in one case: the user has no reaction on the video, a kind is requested,
and the insert of the new reaction is rejected by an index of `models/Like.js`;
then both calls answer `500 Server error` and the store stays as it was. -/
theorem likeVideo_idempotent (st : Store) (user : ObjectId) (id : String) (video : Video)
    (status : Option String) (n1 n2 : ObjectId)
    (hv : st.findVideoById id = some (some video)) (hs : validStatus status)
    (hid : UniqueLikeIds st.likes) (hu : UniqueVideoLikes st.likes) :
    (likeVideo (likeVideo st user id status n1).2 user id status n2).2 =
      (likeVideo st user id status n1).2 ∧
    (likeVideo (likeVideo st user id status n1).2 user id status n2).1 =
      (likeVideo st user id status n1).1 ∧
    ((∃ l d, (likeVideo st user id status n1).1 =
        { status := 200, headers := [], body := .counters l d (truthy status) }) ∨
      (st.findVideoLike user video._id = none ∧
        ∃ t : LikeType, status = some t.toString ∧
          likeIndexConflict st.likes
            { _id := n1, user := user, video := some video._id, comment := none, type := t } =
              true ∧
          likeVideo st user id status n1 = (serverError, st))) := by
  cases he : st.findVideoLike user video._id with
  | none =>
    rcases validStatus_cases status hs with rfl | ⟨t, rfl⟩
    · rw [likeVideo_none st user id video n1 hv he]
      have h := repeat_noop st st user id video video.likes video.dislikes none n2 hv rfl
        (fun s hl hvs => likeVideo_none s user id _ n2 hvs (by
          unfold Store.findVideoLike at he ⊢
          rw [hl]; exact he))
      exact ⟨h.1, h.2, Or.inl ⟨_, _, rfl⟩⟩
    · cases hidx : likeIndexConflict st.likes
          { _id := n1, user := user, video := some video._id, comment := none, type := t }
      · rw [likeVideo_insert st user id video t n1 hv he hidx]
        have h := repeat_noop st
          { st with
            likes := st.likes ++
              [{ _id := n1, user := user, video := some video._id, comment := none, type := t }] }
          user id video (if t = .like then video.likes + 1 else video.likes)
          (if t = .dislike then video.dislikes + 1 else video.dislikes) (some t.toString) n2 hv rfl
          (fun s hl hvs => likeVideo_same s user id _
            { _id := n1, user := user, video := some video._id, comment := none, type := t }
            n2 hvs (by
              unfold Store.findVideoLike at he ⊢
              rw [hl]; exact find_after_insert st.likes user video._id n1 t he))
        rw [truthy_toString]
        exact ⟨h.1, h.2, Or.inl ⟨_, _, rfl⟩⟩
      · have hidx2 : likeIndexConflict st.likes
            { _id := n2, user := user, video := some video._id, comment := none, type := t } =
            true := by
          rw [← hidx]
          exact likeIndexConflict_congr _ _ _ rfl rfl rfl
        have h1 := likeVideo_insert_rejected st user id video t n1 hv he hidx
        have h2 := likeVideo_insert_rejected st user id video t n2 hv he hidx2
        rw [h1, h2]
        exact ⟨rfl, rfl, Or.inr ⟨rfl, t, rfl, hidx, rfl⟩⟩
  | some e =>
    rcases validStatus_cases status hs with rfl | ⟨t, rfl⟩
    · rw [likeVideo_remove st user id video e n1 hv he]
      have h := repeat_noop st
        { st with likes := deleteOne (fun l => l._id == e._id) st.likes }
        user id video (if e.type = .like then decFloor video.likes else video.likes)
        (if e.type = .dislike then decFloor video.dislikes else video.dislikes) none n2 hv rfl
        (fun s hl hvs => likeVideo_none s user id _ n2 hvs (by
          unfold Store.findVideoLike at he ⊢
          rw [hl]; exact find_after_delete st.likes user video._id e hid hu he))
      exact ⟨h.1, h.2, Or.inl ⟨_, _, rfl⟩⟩
    · by_cases hte : t = e.type
      · subst hte
        rw [likeVideo_same st user id video e n1 hv he]
        have h := repeat_noop st st user id video video.likes video.dislikes
          (some e.type.toString) n2 hv rfl
          (fun s hl hvs => likeVideo_same s user id _ e n2 hvs (by
            unfold Store.findVideoLike at he ⊢
            rw [hl]; exact he))
        rw [truthy_toString]
        exact ⟨h.1, h.2, Or.inl ⟨_, _, rfl⟩⟩
      · rw [likeVideo_flip st user id video e t n1 hv he hte]
        have h := repeat_noop st
          { st with
            likes := updateOne (fun l => l._id == e._id) (fun l => { l with type := t })
              st.likes }
          user id video (if e.type = .like then decFloor video.likes else video.likes + 1)
          (if e.type = .dislike then decFloor video.dislikes else video.dislikes + 1)
          (some t.toString) n2 hv rfl
          (fun s hl hvs => likeVideo_same s user id _ { e with type := t } n2 hvs (by
            unfold Store.findVideoLike at he ⊢
            rw [hl]; exact find_after_update st.likes user video._id e t hid he))
        rw [truthy_toString]
        exact ⟨h.1, h.2, Or.inl ⟨_, _, rfl⟩⟩

/-- C3, the scenario of the spec: starting with no reaction, two `like` calls in
sequence raise `likes` from 0 to 1, not 2, and both answer with `likes = 1`. -/
theorem likeVideo_idempotent_witness :
    (likeVideo (likeVideo freshStore 7 "000000000000000000000001" (some "like") 10).2 7
        "000000000000000000000001" (some "like") 11).2 = likedStore ∧
    (likeVideo freshStore 7 "000000000000000000000001" (some "like") 10).2 = likedStore ∧
    (likeVideo (likeVideo freshStore 7 "000000000000000000000001" (some "like") 10).2 7
        "000000000000000000000001" (some "like") 11).1 =
      { status := 200, headers := [], body := .counters 1 0 (some "like") } := by
  have h := likeVideo_idempotent freshStore 7 "000000000000000000000001"
    (sampleVideo 1 "a.mp4" 2) (some "like") 10 11 (by decide) (Or.inr (Or.inl rfl))
    (by unfold UniqueLikeIds; decide) (by unfold UniqueVideoLikes; decide)
  have h1 : (likeVideo freshStore 7 "000000000000000000000001" (some "like") 10).2 =
      likedStore := by decide
  have h2 : (likeVideo freshStore 7 "000000000000000000000001" (some "like") 10).1 =
      { status := 200, headers := [], body := .counters 1 0 (some "like") } := by decide
  exact ⟨h.1.trans h1, h1, h.2.1.trans h2⟩

/-- C4, refuted as stated: in a store where user 7 has a `like` reaction on
video 1 whose `likes` counter is 0, requesting `dislike` leaves `likes` at 0
(it is not lowered by 1) while `dislikes` goes from 0 to 1. -/
theorem flip_at_zero_keeps_zero :
    driftStore.findVideoLike 7 1 =
      some { _id := 10, user := 7, video := some 1, comment := none, type := .like } ∧
    driftStore.videos.map (fun v => (v.likes, v.dislikes)) = [(0, 0)] ∧
    (likeVideo driftStore 7 "000000000000000000000001" (some "dislike") 11).2.videos.map
      (fun v => (v.likes, v.dislikes)) = [(0, 1)] := by
  decide

/-- C4, amended: when the user has a reaction of kind `k` on the video and
requests the other kind, the handler sets the counter of kind `k` to
`max(0, counter - 1)`, which is `counter - 1` whenever that counter is at
least 1, raises the other counter by exactly 1, and rewrites the kind of the
existing reaction in place: the collection keeps its documents and their
order, no reaction is added or removed. -/
theorem likeVideo_flip_existing (st : Store) (user : ObjectId) (id : String) (video : Video)
    (e : Like) (t : LikeType) (newId : ObjectId)
    (hv : st.findVideoById id = some (some video))
    (he : st.findVideoLike user video._id = some e) (hne : t ≠ e.type)
    (hid : UniqueLikeIds st.likes) :
    (∃ l1 l2, st.likes = l1 ++ e :: l2 ∧
      (likeVideo st user id (some t.toString) newId).2.likes =
        l1 ++ { e with type := t } :: l2) ∧
    (likeVideo st user id (some t.toString) newId).2.findVideoById id =
      some (some { video with
        likes := if e.type = .like then max 0 (video.likes - 1) else video.likes + 1
        dislikes := if e.type = .dislike then max 0 (video.dislikes - 1)
          else video.dislikes + 1 }) ∧
    (e.type = .like → 1 ≤ video.likes →
      (likeVideo st user id (some t.toString) newId).2.findVideoById id =
        some (some { video with likes := video.likes - 1, dislikes := video.dislikes + 1 })) ∧
    (e.type = .dislike → 1 ≤ video.dislikes →
      (likeVideo st user id (some t.toString) newId).2.findVideoById id =
        some (some { video with likes := video.likes + 1, dislikes := video.dislikes - 1 })) ∧
    (likeVideo st user id (some t.toString) newId).1 =
      { status := 200, headers := []
        body := .counters
          (if e.type = .like then max 0 (video.likes - 1) else video.likes + 1)
          (if e.type = .dislike then max 0 (video.dislikes - 1) else video.dislikes + 1)
          (some t.toString) } := by
  rw [likeVideo_flip st user id video e t newId hv he hne]
  have hfind := saveVideoCounters_find st
    { st with
      likes := updateOne (fun l => l._id == e._id) (fun l => { l with type := t }) st.likes }
    id video (if e.type = .like then decFloor video.likes else video.likes + 1)
    (if e.type = .dislike then decFloor video.dislikes else video.dislikes + 1)
    (some t.toString) rfl hv
  refine ⟨?_, hfind, ?_, ?_, rfl⟩
  · obtain ⟨l1, l2, hl, _, _, hi1, _⟩ := likes_split st.likes _ e hid he
    refine ⟨l1, l2, hl, ?_⟩
    show updateOne _ _ st.likes = _
    rw [hl, updateOne_append _ _ l1 l2 e hi1 (by simp)]
  · intro hk h1
    rw [hfind]
    have e1 : decFloor video.likes = video.likes - 1 := max_eq_right (by omega)
    simp [hk, e1]
  · intro hk h1
    rw [hfind]
    have e1 : decFloor video.dislikes = video.dislikes - 1 := max_eq_right (by omega)
    simp [hk, e1]

/-- C4, amended, at a concrete input: in the store where user 7 likes video 1
(`likes = 1`), requesting `dislike` gives `likes = 0`, `dislikes = 1` and turns
the one reaction into a `dislike`. -/
theorem likeVideo_flip_existing_witness :
    (likeVideo likedStore 7 "000000000000000000000001" (some "dislike") 11).1 =
      { status := 200, headers := [], body := .counters 0 1 (some "dislike") } ∧
    (likeVideo likedStore 7 "000000000000000000000001" (some "dislike") 11).2.likes =
      [{ _id := 10, user := 7, video := some 1, comment := none, type := .dislike }] := by
  have h := likeVideo_flip_existing likedStore 7 "000000000000000000000001"
    { sampleVideo 1 "a.mp4" 2 with likes := 1 }
    { _id := 10, user := 7, video := some 1, comment := none, type := .like } .dislike 11
    (by decide) (by decide) (by decide) (by unfold UniqueLikeIds; decide)
  refine ⟨h.2.2.2.2.trans (by decide), ?_⟩
  decide

/-- C6: when no status is requested and the user has a reaction on the video,
the handler deletes exactly that reaction (every other reaction stays, in
order), sets the counter of the deleted reaction's kind to
`max(0, counter - 1)` and leaves the other counter as it was. Document ids
are unique in the collection. -/
theorem likeVideo_remove_existing (st : Store) (user : ObjectId) (id : String)
    (video : Video) (e : Like) (newId : ObjectId)
    (hv : st.findVideoById id = some (some video))
    (he : st.findVideoLike user video._id = some e) (hid : UniqueLikeIds st.likes) :
    (∃ l1 l2, st.likes = l1 ++ e :: l2 ∧
      (likeVideo st user id none newId).2.likes = l1 ++ l2) ∧
    e ∉ (likeVideo st user id none newId).2.likes ∧
    (likeVideo st user id none newId).2.findVideoById id =
      some (some { video with
        likes := if e.type = .like then max 0 (video.likes - 1) else video.likes
        dislikes := if e.type = .dislike then max 0 (video.dislikes - 1)
          else video.dislikes }) ∧
    (likeVideo st user id none newId).1 =
      { status := 200, headers := []
        body := .counters
          (if e.type = .like then max 0 (video.likes - 1) else video.likes)
          (if e.type = .dislike then max 0 (video.dislikes - 1) else video.dislikes)
          none } := by
  rw [likeVideo_remove st user id video e newId hv he]
  have hfind := saveVideoCounters_find st
    { st with likes := deleteOne (fun l => l._id == e._id) st.likes }
    id video (if e.type = .like then decFloor video.likes else video.likes)
    (if e.type = .dislike then decFloor video.dislikes else video.dislikes) none rfl hv
  obtain ⟨l1, l2, hl, _, _, hi1, hi2⟩ := likes_split st.likes _ e hid he
  have hdel : deleteOne (fun l => l._id == e._id) st.likes = l1 ++ l2 := by
    rw [hl, deleteOne_append _ l1 l2 e hi1 (by simp)]
  refine ⟨⟨l1, l2, hl, hdel⟩, ?_, hfind, rfl⟩
  show e ∉ deleteOne (fun l => l._id == e._id) st.likes
  rw [hdel]
  intro hmem
  rcases List.mem_append.mp hmem with h | h
  · simpa using hi1 e h
  · simpa using hi2 e h

/-- C6 at a concrete input: removing user 7's `like` on video 1 empties the
ledger and brings `likes` from 1 to 0. -/
theorem likeVideo_remove_existing_witness :
    (likeVideo likedStore 7 "000000000000000000000001" none 11).2.likes = [] ∧
    (likeVideo likedStore 7 "000000000000000000000001" none 11).1 =
      { status := 200, headers := [], body := .counters 0 0 none } := by
  have h := likeVideo_remove_existing likedStore 7 "000000000000000000000001"
    { sampleVideo 1 "a.mp4" 2 with likes := 1 }
    { _id := 10, user := 7, video := some 1, comment := none, type := .like } 11
    (by decide) (by decide) (by unfold UniqueLikeIds; decide)
  exact ⟨by decide, h.2.2.2.trans (by decide)⟩

/-- The insert branch of the video reaction handler when the indexes of
`models/Like.js` accept the write: the user has no reaction on the video, a
kind `k` is requested, and no stored reaction collides with the new one. The
handler appends exactly one reaction `(user, video, k)`, raises the counter of
`k` by exactly 1, leaves the other counter unchanged and answers with the
resulting counters and status `k`. -/
theorem likeVideo_insert_new (st : Store) (user : ObjectId) (id : String) (video : Video)
    (k : LikeType) (newId : ObjectId)
    (hv : st.findVideoById id = some (some video))
    (he : st.findVideoLike user video._id = none)
    (hidx : likeIndexConflict st.likes
      { _id := newId, user := user, video := some video._id, comment := none, type := k } =
        false) :
    (likeVideo st user id (some k.toString) newId).2.likes =
      st.likes ++
        [{ _id := newId, user := user, video := some video._id, comment := none, type := k }] ∧
    (likeVideo st user id (some k.toString) newId).2.findVideoById id =
      some (some { video with
        likes := if k = .like then video.likes + 1 else video.likes
        dislikes := if k = .dislike then video.dislikes + 1 else video.dislikes }) ∧
    (likeVideo st user id (some k.toString) newId).1 =
      { status := 200, headers := []
        body := .counters
          (if k = .like then video.likes + 1 else video.likes)
          (if k = .dislike then video.dislikes + 1 else video.dislikes)
          (some k.toString) } := by
  rw [likeVideo_insert st user id video k newId hv he hidx]
  exact ⟨rfl, saveVideoCounters_find st _ id video _ _ _ rfl hv, rfl⟩

/-- The insert branch at a concrete input: user 7's first `like` on video 1
inserts one reaction and answers `likes = 1`, `dislikes = 0`, status `like`. -/
theorem likeVideo_insert_new_witness :
    (likeVideo freshStore 7 "000000000000000000000001" (some "like") 10).2.likes =
      [{ _id := 10, user := 7, video := some 1, comment := none, type := .like }] ∧
    (likeVideo freshStore 7 "000000000000000000000001" (some "like") 10).1 =
      { status := 200, headers := [], body := .counters 1 0 (some "like") } := by
  have h := likeVideo_insert_new freshStore 7 "000000000000000000000001"
    (sampleVideo 1 "a.mp4" 2) .like 10 (by decide) (by decide) (by decide)
  exact ⟨h.1, h.2.2.trans (by decide)⟩

/-- C7, the code at the failing input: in a store with videos 1 and 3 and no
reaction, user 7 likes video 1 (answer 200, `likes = 1`) and then requests
`like` on video 3, on which the user has no reaction. The new reaction
`(7, video 3, no comment)` collides with the stored `(7, video 1, no comment)`
in the unique index on `(user, comment)` of `models/Like.js`, the write is
rejected, and the handler answers `500 Server error`: no reaction is inserted
and the counter of video 3 stays 0. -/
theorem likeVideo_second_video_rejected :
    likeVideo pairStore 7 "000000000000000000000001" (some "like") 10 =
      ({ status := 200, headers := [], body := .counters 1 0 (some "like") },
       pairVideoLikedStore) ∧
    pairVideoLikedStore.findVideoById "000000000000000000000003" =
      some (some (sampleVideo 3 "b.mp4" 2)) ∧
    pairVideoLikedStore.findVideoLike 7 3 = none ∧
    likeVideo pairVideoLikedStore 7 "000000000000000000000003" (some "like") 11 =
      (serverError, pairVideoLikedStore) ∧
    (likeVideo pairVideoLikedStore 7 "000000000000000000000003" (some "like") 11).1.status =
      500 := by
  refine ⟨by decide, by decide, by decide, by decide, by decide⟩

/-- C5: in every store reachable from a consistent one by calls of the video
reaction handler in sequence (status `like`, `dislike` or none, fresh ids for
created documents), every video's `likes` is the number of `like` reactions
referencing it, its `dislikes` the number of `dislike` reactions, and both are
non-negative. -/
theorem reaction_counters_invariant (st0 st : Store) (h0 : Consistent st0)
    (hr : ReactionReachable st0 st) :
    ∀ v ∈ st.videos,
      v.likes = countReactions st.likes v._id .like ∧
      v.dislikes = countReactions st.likes v._id .dislike ∧
      0 ≤ v.likes ∧ 0 ≤ v.dislikes := by
  have hc : Consistent st := by
    unfold ReactionReachable at hr
    induction hr with
    | refl => exact h0
    | tail _ hstep ih =>
      cases hstep with
      | call user id status newId hs hfresh =>
        exact consistent_likeVideo _ ih user id status newId hs hfresh
  intro v hv
  obtain ⟨h1, h2⟩ := hc.2.2.2 v hv
  refine ⟨h1, h2, ?_, ?_⟩
  · rw [h1]; exact Int.natCast_nonneg _
  · rw [h2]; exact Int.natCast_nonneg _

/-- C5 at a concrete input: the store with no reaction is consistent, the store
after user 7's `like` is reachable from it, and there `likes = 1` is the
number of `like` reactions on video 1. -/
theorem reaction_counters_invariant_witness :
    Consistent freshStore ∧ ReactionReachable freshStore likedStore ∧
    ({ sampleVideo 1 "a.mp4" 2 with likes := 1 } : Video).likes =
      countReactions likedStore.likes 1 .like := by
  have hc : Consistent freshStore := by
    refine ⟨by decide, by unfold UniqueLikeIds; decide, by unfold UniqueVideoLikes; decide, ?_⟩
    decide
  have hstep : ReactionStep freshStore likedStore := by
    have h := ReactionStep.call freshStore 7 "000000000000000000000001" (some "like") 10
      (Or.inr (Or.inl rfl)) (by decide)
    have e : (likeVideo freshStore 7 "000000000000000000000001" (some "like") 10).2 =
        likedStore := by decide
    rw [e] at h
    exact h
  have hreach : ReactionReachable freshStore likedStore := Relation.ReflTransGen.single hstep
  exact ⟨hc, hreach,
    (reaction_counters_invariant freshStore likedStore hc hreach _ (by decide)).1⟩

/-- C8: in every store reachable from an empty ledger by calls of the video
reaction handler and the comment like handler in sequence, there is at most one
reaction per (user, video) and at most one per (user, comment); so no user
holds a `like` and a `dislike` on the same video. -/
theorem ledger_unique_reactions (st0 st : Store) (h0 : st0.likes = [])
    (hr : LedgerReachable st0 st) :
    UniqueVideoLikes st.likes ∧ UniqueCommentLikes st.likes ∧
    ∀ a ∈ st.likes, ∀ b ∈ st.likes, ∀ vid : ObjectId,
      a.user = b.user → a.video = some vid → b.video = some vid →
      ¬ (a.type = .like ∧ b.type = .dislike) := by
  have hu : UniqueVideoLikes st.likes ∧ UniqueCommentLikes st.likes := by
    unfold LedgerReachable at hr
    induction hr with
    | refl =>
      rw [h0]
      exact ⟨List.Pairwise.nil, List.Pairwise.nil⟩
    | tail _ hstep ih => exact unique_ledgerStep _ _ hstep ih
  refine ⟨hu.1, hu.2, ?_⟩
  intro a ha b hb vid huser hva hvb hty
  have hne : a ≠ b := by
    intro hab
    rw [hab] at hty
    rw [hty.2] at hty
    exact absurd hty.1 (by decide)
  have hsymm : Symmetric fun x y : Like =>
      ¬ (x.user = y.user ∧ x.video.isSome = true ∧ x.video = y.video) := by
    intro x y hxy hyx
    apply hxy
    refine ⟨hyx.1.symm, ?_, hyx.2.2.symm⟩
    rw [← hyx.2.2]
    exact hyx.2.1
  have := List.Pairwise.forall hsymm hu.1 ha hb hne
  exact this ⟨huser, by rw [hva]; rfl, by rw [hva, hvb]⟩

/-- C8 at a concrete input: the store after user 7's `like` on video 1 is
reachable from the empty ledger and holds one reaction per pair. -/
theorem ledger_unique_reactions_witness :
    freshStore.likes = [] ∧ LedgerReachable freshStore likedStore ∧
    UniqueVideoLikes likedStore.likes ∧ UniqueCommentLikes likedStore.likes := by
  have hstep : LedgerStep freshStore likedStore := by
    have h := LedgerStep.video freshStore 7 "000000000000000000000001" (some "like") 10
    have e : (likeVideo freshStore 7 "000000000000000000000001" (some "like") 10).2 =
        likedStore := by decide
    rw [e] at h
    exact h
  have hreach : LedgerReachable freshStore likedStore := Relation.ReflTransGen.single hstep
  have h := ledger_unique_reactions freshStore likedStore rfl hreach
  exact ⟨rfl, hreach, h.1, h.2.1⟩

/-- The comment reaction handler on an existing comment: `like` with no
reaction of the user on it, when the indexes of `models/Like.js` accept the
write, appends one `like` reaction and raises the comment's `likes` by 1; `like` with
a reaction present changes nothing; `unlike` with a reaction present deletes
that reaction and sets `likes` to `max(0, likes - 1)`; `unlike` with no
reaction changes nothing; each response carries the resulting `likes`.
Document ids are unique in the `likes` collection. -/
theorem likeComment_state_machine (st : Store) (user : ObjectId) (id : String)
    (comment : Comment) (newId : ObjectId)
    (hc : st.findCommentById id = some (some comment)) (hid : UniqueLikeIds st.likes) :
    (st.findCommentLike user comment._id = none →
      likeIndexConflict st.likes
        { _id := newId, user := user, video := none, comment := some comment._id,
          type := .like } = false →
      (likeComment st user id (some "like") newId).2.likes =
        st.likes ++ [{ _id := newId, user := user, video := none,
                       comment := some comment._id, type := .like }] ∧
      (likeComment st user id (some "like") newId).2.findCommentById id =
        some (some { comment with likes := comment.likes + 1 }) ∧
      (likeComment st user id (some "like") newId).1 =
        { status := 200, headers := [], body := .commentLikes (comment.likes + 1) }) ∧
    (∀ e, st.findCommentLike user comment._id = some e →
      likeComment st user id (some "like") newId =
        ({ status := 200, headers := [], body := .commentLikes comment.likes }, st)) ∧
    (∀ e, st.findCommentLike user comment._id = some e →
      (∃ l1 l2, st.likes = l1 ++ e :: l2 ∧
        (likeComment st user id (some "unlike") newId).2.likes = l1 ++ l2) ∧
      (likeComment st user id (some "unlike") newId).2.findCommentById id =
        some (some { comment with likes := max 0 (comment.likes - 1) }) ∧
      (likeComment st user id (some "unlike") newId).1 =
        { status := 200, headers := []
          body := .commentLikes (max 0 (comment.likes - 1)) }) ∧
    (st.findCommentLike user comment._id = none →
      likeComment st user id (some "unlike") newId =
        ({ status := 200, headers := [], body := .commentLikes comment.likes }, st)) := by
  have hne : ¬ ((some "unlike" : Option String) = some "like") := by decide
  refine ⟨?_, ?_, ?_, ?_⟩
  · intro he hidx
    rw [likeComment_like_new st user id comment newId hc he hidx]
    exact ⟨rfl, saveCommentLikes_find st _ id comment _ rfl hc, rfl⟩
  · intro e he
    unfold likeComment
    simp only [hc, he, if_true]
  · intro e he
    rw [likeComment_unlike_existing st user id comment e newId hc he]
    refine ⟨?_, saveCommentLikes_find st _ id comment _ rfl hc, rfl⟩
    obtain ⟨l1, l2, hl, _, _, hi1, _⟩ := likes_split st.likes _ e hid he
    refine ⟨l1, l2, hl, ?_⟩
    show deleteOne (fun l => l._id == e._id) st.likes = l1 ++ l2
    rw [hl, deleteOne_append _ l1 l2 e hi1 (by simp)]
  · intro he
    unfold likeComment
    simp only [hc, he, hne, if_true, if_false]

/-- The comment reaction handler at a concrete input: user 7 likes comment 5
of the store with no reaction (`likes` 0 to 1), and unlikes it in the store where the like exists
(`likes` 1 to 0, ledger empty again). -/
theorem likeComment_state_machine_witness :
    (likeComment freshStore 7 "000000000000000000000005" (some "like") 10).2 =
      commentLikedStore ∧
    (likeComment freshStore 7 "000000000000000000000005" (some "like") 10).1 =
      { status := 200, headers := [], body := .commentLikes 1 } ∧
    (likeComment freshStore 7 "000000000000000000000005" (some "unlike") 10) =
      ({ status := 200, headers := [], body := .commentLikes 0 }, freshStore) := by
  have h := likeComment_state_machine freshStore 7 "000000000000000000000005"
    { _id := 5, video := 1, user := 2, content := "hi", likes := 0, edited := false,
      createdAt := 0 } 10 (by decide) (by unfold UniqueLikeIds; decide)
  exact ⟨by decide, (h.1 (by decide) (by decide)).2.2.trans (by decide), h.2.2.2 (by decide)⟩

/-- C9, the code at the failing input: in a store with comments 5 and 6 and no
reaction, user 7 likes comment 5 (answer 200, `likes = 1`) and then sends
action `like` for comment 6, on which the user has no reaction. The new
reaction `(7, no video, comment 6)` collides with the stored
`(7, no video, comment 5)` in the unique index on `(user, video)` of
`models/Like.js`, the write is rejected, and the handler answers
`500 Server error`: no reaction is inserted and the `likes` of comment 6
stays 0. -/
theorem likeComment_second_comment_rejected :
    likeComment pairStore 7 "000000000000000000000005" (some "like") 10 =
      ({ status := 200, headers := [], body := .commentLikes 1 }, pairCommentLikedStore) ∧
    pairCommentLikedStore.findCommentById "000000000000000000000006" =
      some (some { _id := 6, video := 1, user := 2, content := "yo", likes := 0,
                   edited := false, createdAt := 0 }) ∧
    pairCommentLikedStore.findCommentLike 7 6 = none ∧
    likeComment pairCommentLikedStore 7 "000000000000000000000006" (some "like") 11 =
      (serverError, pairCommentLikedStore) ∧
    (likeComment pairCommentLikedStore 7 "000000000000000000000006" (some "like") 11).1.status =
      500 := by
  refine ⟨by decide, by decide, by decide, by decide, by decide⟩

/-! ## Subscriptions -/

/-- C10, the code at the failing input: the user `507f1f77bcf86cd799439011`
sends its own id in upper case. The id lookup resolves it to the user's own
record, the string comparison with `req.user._id.toString()` fails, and the
handler answers 201 and stores a subscription of the user to itself. With the
id in lower case the same request is rejected with 400 and nothing is stored. -/
theorem subscribe_self_uppercase :
    selfStore.findUserById "507F1F77BCF86CD799439011" =
      some (some { _id := 0x507f1f77bcf86cd799439011, username := "ann", avatar := "",
                   bio := "", subscribersCount := 0 }) ∧
    (subscribe selfStore 0x507f1f77bcf86cd799439011 (some "507F1F77BCF86CD799439011") 99).1.status
      = 201 ∧
    (subscribe selfStore 0x507f1f77bcf86cd799439011
        (some "507F1F77BCF86CD799439011") 99).2.subscriptions =
      [{ _id := 99, subscriber := 0x507f1f77bcf86cd799439011,
         creator := 0x507f1f77bcf86cd799439011 }] ∧
    subscribe selfStore 0x507f1f77bcf86cd799439011 (some "507f1f77bcf86cd799439011") 99 =
      (jsonMessage 400 "You cannot subscribe to yourself", selfStore) := by
  decide

/-- C11, counterexample: the user `507f1f77bcf86cd799439011` sends its own id
in lower case. A user with the given creator id exists and no subscription of
the subscriber to that creator is stored, so neither failing case of the claim
applies; yet the handler answers 400 `You cannot subscribe to yourself`,
inserts nothing and raises no count. -/
theorem subscribe_self_not_inserted :
    selfStore.users.find? (fun u => u._id == 0x507f1f77bcf86cd799439011) =
      some { _id := 0x507f1f77bcf86cd799439011, username := "ann", avatar := "",
             bio := "", subscribersCount := 0 } ∧
    selfStore.subscriptions.find?
      (fun x => x.subscriber == 0x507f1f77bcf86cd799439011 &&
        x.creator == 0x507f1f77bcf86cd799439011) = none ∧
    (subscribe selfStore 0x507f1f77bcf86cd799439011
        (some "507f1f77bcf86cd799439011") 99).1.status = 400 ∧
    (subscribe selfStore 0x507f1f77bcf86cd799439011
        (some "507f1f77bcf86cd799439011") 99).2.subscriptions = [] ∧
    (subscribe selfStore 0x507f1f77bcf86cd799439011
        (some "507f1f77bcf86cd799439011") 99).2.users = selfStore.users := by
  refine ⟨by decide, by decide, by decide, by decide, by decide⟩

/-- C11, amended: for a given creator id `cid` (a well-formed id, resolving to
`oid`), subscribe answers 404 when no user has that id; 400 when the creator
exists and `cid` is the string form of the subscriber's own id; 400 when the
creator exists, `cid` is not the subscriber's own id and a subscription of the
subscriber to that creator is already stored; in each of these cases the whole
store (subscriptions and every user's `subscribersCount`) is as it was.
Otherwise, that is when the creator exists, `cid` is not the subscriber's own
id and no such subscription is stored, it answers 201, appends exactly one
subscription (subscriber, creator) and raises the `subscribersCount` of the
creator's user record by exactly 1, leaving every other user record and every
other collection as they were. And for every request whatever, an answer other
than 201 leaves the whole store as it was. -/
theorem subscribe_contract (st : Store) (user : ObjectId) (cid : String) (oid : ObjectId)
    (newId : ObjectId) (hne : cid ≠ "") (hc : castObjectId cid = some oid) :
    (st.users.find? (fun u => u._id == oid) = none →
      subscribe st user (some cid) newId = (jsonMessage 404 "Creator not found", st)) ∧
    (∀ creator, st.users.find? (fun u => u._id == oid) = some creator →
      (ObjectId.toString user = cid →
        subscribe st user (some cid) newId =
          (jsonMessage 400 "You cannot subscribe to yourself", st)) ∧
      (∀ e, ObjectId.toString user ≠ cid →
        st.subscriptions.find? (fun x => x.subscriber == user && x.creator == oid) = some e →
        subscribe st user (some cid) newId =
          (jsonMessage 400 "Already subscribed to this channel", st)) ∧
      (ObjectId.toString user ≠ cid →
        st.subscriptions.find? (fun x => x.subscriber == user && x.creator == oid) = none →
        ∃ u1 u2, st.users = u1 ++ creator :: u2 ∧ creator._id = oid ∧
          (∀ x ∈ u1, x._id ≠ oid) ∧
          subscribe st user (some cid) newId =
            ({ status := 201, headers := [],
               body := .subscribed "Subscribed successfully"
                 { _id := newId, subscriber := user, creator := oid } },
             { st with
               subscriptions :=
                 st.subscriptions ++ [{ _id := newId, subscriber := user, creator := oid }]
               users :=
                 u1 ++ { creator with subscribersCount := creator.subscribersCount + 1 } ::
                   u2 }))) ∧
    (∀ creatorId, (subscribe st user creatorId newId).1.status ≠ 201 →
      (subscribe st user creatorId newId).2 = st) := by
  refine ⟨?_, ?_, ?_⟩
  · intro hu
    unfold subscribe
    simp only [truthy, hne, if_false, hc, hu]
  · intro creator hu
    refine ⟨?_, ?_, ?_⟩
    · intro hself
      unfold subscribe
      simp only [truthy, hne, if_false, hc, hu, hself, if_true]
    · intro e hself hsub
      unfold subscribe
      simp only [truthy, hne, if_false, hc, hu, hself, hsub]
    · intro hself hsub
      obtain ⟨u1, u2, hl, hq, hno⟩ := find_split_first st.users _ creator hu
      have hid : creator._id = oid := by simpa using hq
      refine ⟨u1, u2, hl, hid, fun x hx => by simpa using hno x hx, ?_⟩
      rw [subscribe_success st user cid oid creator newId hne hc hu hself hsub]
      have hupd : updateOne (fun u => u._id == creator._id)
          (fun u => { u with subscribersCount := creator.subscribersCount + 1 }) st.users =
          u1 ++ { creator with subscribersCount := creator.subscribersCount + 1 } :: u2 := by
        rw [hl, updateOne_append _ _ u1 u2 creator
          (fun x hx => by simpa [hid] using hno x hx) (by simp)]
      rw [hupd]
  · intro creatorId h201
    rcases subscribe_cases st user creatorId newId with h | ⟨cid1, oid1, creator, rfl, hne1, hc1,
      hu1, hself1, hsub1⟩
    · exact h.2
    · exact absurd
        (by rw [subscribe_success st user cid1 oid1 creator newId hne1 hc1 hu1 hself1 hsub1])
        h201

/-- C11 at concrete inputs: in the store with a creator (id 1) and a viewer
(id 2), subscribing the viewer to the unknown id 9 is answered 404 with nothing
changed; subscribing to id 1 answers 201, stores one subscription and raises
the creator's count from 3 to 4; and in the store so obtained the same request
is answered 400 with nothing changed. -/
theorem subscribe_contract_witness :
    subscribe channelStore 2 (some "000000000000000000000009") 20 =
      (jsonMessage 404 "Creator not found", channelStore) ∧
    subscribe channelStore 2 (some "000000000000000000000001") 20 =
      ({ status := 201, headers := [],
         body := .subscribed "Subscribed successfully"
           { _id := 20, subscriber := 2, creator := 1 } }, subscribedStore) ∧
    subscribe subscribedStore 2 (some "000000000000000000000001") 21 =
      (jsonMessage 400 "Already subscribed to this channel", subscribedStore) := by
  have h9 := subscribe_contract channelStore 2 "000000000000000000000009" 9 20
    (by decide) (by decide)
  have h1 := subscribe_contract subscribedStore 2 "000000000000000000000001" 1 21
    (by decide) (by decide)
  exact ⟨h9.1 (by decide), by decide,
    (h1.2.1 { _id := 1, username := "creator", avatar := "", bio := "", subscribersCount := 4 }
      (by decide)).2.1 { _id := 20, subscriber := 2, creator := 1 } (by decide) (by decide)⟩

/-- C12: for a well-formed creator id, unsubscribe answers 404 and changes
nothing when no subscription of the subscriber to the creator is stored;
otherwise it answers 200, deletes exactly that subscription (ids are unique in
the collection) and sets the `subscribersCount` of the creator's user record to
`max(0, subscribersCount - 1)`, leaving every other user record as it was; when
the creator's user record no longer exists the user records are untouched. -/
theorem unsubscribe_contract (st : Store) (user : ObjectId) (creatorId : String)
    (oid : ObjectId) (hc : castObjectId creatorId = some oid)
    (hid : UniqueSubscriptionIds st.subscriptions) :
    (st.subscriptions.find? (fun x => x.subscriber == user && x.creator == oid) = none →
      unsubscribe st user creatorId = (jsonMessage 404 "Subscription not found", st)) ∧
    (∀ e, st.subscriptions.find? (fun x => x.subscriber == user && x.creator == oid) = some e →
      (unsubscribe st user creatorId).1 = jsonMessage 200 "Unsubscribed successfully" ∧
      (∃ l1 l2, st.subscriptions = l1 ++ e :: l2 ∧
        (unsubscribe st user creatorId).2.subscriptions = l1 ++ l2) ∧
      e ∉ (unsubscribe st user creatorId).2.subscriptions ∧
      (∀ creator, st.users.find? (fun u => u._id == oid) = some creator →
        ∃ u1 u2, st.users = u1 ++ creator :: u2 ∧ (∀ x ∈ u1, x._id ≠ oid) ∧
          (unsubscribe st user creatorId).2.users =
            u1 ++ { creator with
                    subscribersCount := max 0 (creator.subscribersCount - 1) } :: u2) ∧
      (st.users.find? (fun u => u._id == oid) = none →
        (unsubscribe st user creatorId).2.users = st.users)) := by
  refine ⟨?_, ?_⟩
  · intro hnone
    unfold unsubscribe
    simp only [hc, hnone]
  · intro e he
    obtain ⟨l1, l2, hl, _, _, hi1, hi2⟩ :=
      find_split Subscription._id st.subscriptions _ e hid he
    have hdel : deleteOne (fun x => x._id == e._id) st.subscriptions = l1 ++ l2 := by
      rw [hl, deleteOne_append _ l1 l2 e (fun x hx => by simpa using hi1 x hx) (by simp)]
    have hnot : e ∉ l1 ++ l2 := by
      intro hmem
      rcases List.mem_append.mp hmem with h | h
      · exact hi1 e h rfl
      · exact hi2 e h rfl
    cases hu : st.users.find? (fun u => u._id == oid) with
    | none =>
      have hres : unsubscribe st user creatorId =
          (jsonMessage 200 "Unsubscribed successfully",
           { st with subscriptions := deleteOne (fun x => x._id == e._id) st.subscriptions }) := by
        unfold unsubscribe
        simp only [hc, he, hu]
      rw [hres]
      refine ⟨rfl, ⟨l1, l2, hl, hdel⟩, ?_, ?_, fun _ => rfl⟩
      · show e ∉ deleteOne (fun x => x._id == e._id) st.subscriptions
        rw [hdel]; exact hnot
      · intro creator hcr
        exact absurd hcr (by simp)
    | some creator =>
      have hres : unsubscribe st user creatorId =
          (jsonMessage 200 "Unsubscribed successfully",
           { st with
             subscriptions := deleteOne (fun x => x._id == e._id) st.subscriptions
             users := updateOne (fun u => u._id == creator._id)
               (fun u => { u with subscribersCount := decFloor creator.subscribersCount })
               st.users }) := by
        unfold unsubscribe
        simp only [hc, he, hu]
      rw [hres]
      refine ⟨rfl, ⟨l1, l2, hl, hdel⟩, ?_, ?_, fun h => absurd h (by simp)⟩
      · show e ∉ deleteOne (fun x => x._id == e._id) st.subscriptions
        rw [hdel]; exact hnot
      · intro creator1 hcr
        have hcc : creator1 = creator := (Option.some.inj hcr).symm
        subst hcc
        obtain ⟨u1, u2, hul, hq, hno⟩ := find_split_first st.users _ creator1 hu
        have hcid : creator1._id = oid := by simpa using hq
        refine ⟨u1, u2, hul, fun x hx => by simpa using hno x hx, ?_⟩
        show updateOne _ _ st.users = _
        rw [hul, updateOne_append _ _ u1 u2 creator1
          (fun x hx => by simpa [hcid] using hno x hx) (by simp)]
        rfl

/-- C12 at concrete inputs: in the store where the viewer is subscribed to the
creator, unsubscribing gives back the store without the subscription and the
count 3; in the store without a subscription it is answered 404. -/
theorem unsubscribe_contract_witness :
    unsubscribe channelStore 2 "000000000000000000000001" =
      (jsonMessage 404 "Subscription not found", channelStore) ∧
    unsubscribe subscribedStore 2 "000000000000000000000001" =
      (jsonMessage 200 "Unsubscribed successfully", channelStore) := by
  have h := unsubscribe_contract channelStore 2 "000000000000000000000001" 1 (by decide)
    (by unfold UniqueSubscriptionIds; decide)
  exact ⟨h.1 (by decide), by decide⟩

/-- C13: when subscribe succeeds (201) for a subscriber and a creator, an
unsubscribe for the same pair right after it answers 200 and gives back the
store as it was before the subscribe: the creator's `subscribersCount` has its
earlier value and the subscriptions are what they were. Counts in the store
are non-negative and the id of the new subscription is fresh. -/
theorem subscribe_then_unsubscribe (st : Store) (user : ObjectId) (cid : String)
    (newId : ObjectId)
    (hok : (subscribe st user (some cid) newId).1.status = 201)
    (hfresh : newId ∉ st.subscriptions.map Subscription._id)
    (hcount : ∀ u ∈ st.users, 0 ≤ u.subscribersCount) :
    unsubscribe (subscribe st user (some cid) newId).2 user cid =
      (jsonMessage 200 "Unsubscribed successfully", st) := by
  rcases subscribe_cases st user (some cid) newId with h | ⟨cid1, oid, creator, hcid, hne, hc,
    hu, hself, hsub⟩
  · exact absurd hok h.1
  · have hcc : cid1 = cid := (Option.some.inj hcid).symm
    subst hcc
    rw [subscribe_success st user cid1 oid creator newId hne hc hu hself hsub]
    obtain ⟨u1, u2, hul, hq, hno⟩ := find_split_first st.users _ creator hu
    have hcid1 : creator._id = oid := by simpa using hq
    have hno1 : ∀ x ∈ u1, (x._id == oid) = false := hno
    have hupd : updateOne (fun u => u._id == creator._id)
        (fun u => { u with subscribersCount := creator.subscribersCount + 1 }) st.users =
        u1 ++ { creator with subscribersCount := creator.subscribersCount + 1 } :: u2 := by
      rw [hul, updateOne_append _ _ u1 u2 creator
        (fun x hx => by simpa [hcid1] using hno x hx) (by simp)]
    have hfindsub : (st.subscriptions ++
        [({ _id := newId, subscriber := user, creator := oid } : Subscription)]).find?
        (fun x => x.subscriber == user && x.creator == oid) =
        some { _id := newId, subscriber := user, creator := oid } := by
      rw [List.find?_append, hsub]
      simp
    have hdel : deleteOne (fun x : Subscription => x._id == newId)
        (st.subscriptions ++ [{ _id := newId, subscriber := user, creator := oid }]) =
        st.subscriptions := by
      rw [deleteOne_append _ st.subscriptions [] _ (fun x hx => by
        have : x._id ≠ newId := fun heq => hfresh (heq ▸ List.mem_map_of_mem _ hx)
        simpa using this) (by simp)]
      simp
    have hfindu : (u1 ++
        { creator with subscribersCount := creator.subscribersCount + 1 } :: u2).find?
        (fun u => u._id == oid) =
        some { creator with subscribersCount := creator.subscribersCount + 1 } := by
      rw [List.find?_append, List.find?_eq_none.mpr (fun x hx => by simp [hno1 x hx])]
      simp [hcid1]
    have hge : 0 ≤ creator.subscribersCount :=
      hcount creator (List.mem_of_find?_eq_some hu)
    have hdec : decFloor (creator.subscribersCount + 1) = creator.subscribersCount := by
      unfold decFloor
      omega
    have hback : updateOne (fun u : User => u._id == creator._id)
        (fun u => { u with subscribersCount := decFloor (creator.subscribersCount + 1) })
        (u1 ++ { creator with subscribersCount := creator.subscribersCount + 1 } :: u2) =
        st.users := by
      rw [updateOne_append _ _ u1 u2 _ (fun x hx => by simpa [hcid1] using hno x hx) (by simp),
        hdec, hul]
    unfold unsubscribe
    simp only [hc, hfindsub, hdel, hupd, hfindu, hback]

/-- C13 at a concrete input: the viewer subscribes to the creator (count 3 to
4) and unsubscribes again, which gives back the original store (count 3, no
subscription). -/
theorem subscribe_then_unsubscribe_witness :
    (subscribe channelStore 2 (some "000000000000000000000001") 20).2 = subscribedStore ∧
    unsubscribe (subscribe channelStore 2 (some "000000000000000000000001") 20).2 2
        "000000000000000000000001" =
      (jsonMessage 200 "Unsubscribed successfully", channelStore) :=
  ⟨by decide,
   subscribe_then_unsubscribe channelStore 2 "000000000000000000000001" 20 (by decide)
     (by decide) (by decide)⟩

/-! ## Watch history -/

/-- C14: `recordView` is an upsert. On a store whose `histories` collection
satisfies its constraints (unique ids, one record per user and video), two
calls of `POST /api/history` in sequence for the same user and video, at times
`t1` and `t2`, leave exactly one record for the pair, and its `watchedAt` is
`t2`. And in every store reachable by requests from one with no history
records there is at most one record per (user, video). -/
theorem recordView_upsert (st : Store) (user : ObjectId) (vid : String) (oid : ObjectId)
    (t1 t2 : Nat) (n1 n2 : ObjectId) (hne : vid ≠ "") (hc : castObjectId vid = some oid)
    (hid : UniqueHistoryIds st.histories) (hu : UniqueHistory st.histories)
    (hfresh : n1 ∉ st.histories.map History._id) :
    (∃ e : History, e.user = user ∧ e.video = oid ∧ e.watchedAt = t2 ∧
      (recordView (recordView st user (some vid) t1 n1).2 user (some vid) t2 n2).2.histories.filter
        (fun h => h.user == user && h.video == oid) = [e]) ∧
    (∀ st0 st1 : Store, st0.histories = [] → HistoryReachable st0 st1 →
      UniqueHistory st1.histories) := by
  constructor
  · cases hf : st.histories.find? (fun h => h.user == user && h.video == oid) with
    | none =>
      have hnoq : ∀ x ∈ st.histories, (x.user == user && x.video == oid) = false := by
        intro x hx
        simpa using List.find?_eq_none.mp hf x hx
      rw [recordView_insert st user vid oid t1 n1 hne hc hf]
      have hf2 : (st.histories ++
          [({ _id := n1, user := user, video := oid, watchedAt := t1 } : History)]).find?
          (fun h => h.user == user && h.video == oid) =
          some { _id := n1, user := user, video := oid, watchedAt := t1 } := by
        rw [List.find?_append, hf]
        simp
      rw [recordView_update _ user vid oid t2 n2 _ hne hc hf2]
      refine ⟨{ _id := n1, user := user, video := oid, watchedAt := t2 }, rfl, rfl, rfl, ?_⟩
      show List.filter _ (updateOne _ _ (st.histories ++ [_])) = _
      rw [updateOne_append _ _ st.histories [] _ (fun x hx => by
        have : x._id ≠ n1 := fun heq => hfresh (heq ▸ List.mem_map_of_mem _ hx)
        simpa using this) (by simp)]
      rw [List.filter_append, List.filter_eq_nil_iff.mpr (fun x hx => by simp [hnoq x hx])]
      simp
    | some e =>
      obtain ⟨l1, l2, hl, hq, hq1, hi1, hi2⟩ := find_split History._id st.histories _ e hid hf
      have hq2 : ∀ x ∈ l2, (x.user == user && x.video == oid) = false := by
        intro x hx
        unfold UniqueHistory at hu
        rw [hl] at hu
        have hp := (List.pairwise_cons.mp (List.pairwise_append.mp hu).2.1).1 x hx
        simp only [Bool.and_eq_true, beq_iff_eq] at hq
        cases hb : (x.user == user && x.video == oid) with
        | false => rfl
        | true =>
          simp only [Bool.and_eq_true, beq_iff_eq] at hb
          exact absurd ⟨hq.1.trans hb.1.symm, hq.2.trans hb.2.symm⟩ hp
      have hidf : ∀ x ∈ l1, (x._id == e._id) = false := fun x hx => by simpa using hi1 x hx
      rw [recordView_update st user vid oid t1 n1 e hne hc hf]
      have hupd1 : updateOne (fun h => h._id == e._id) (fun h => { h with watchedAt := t1 })
          st.histories = l1 ++ { e with watchedAt := t1 } :: l2 := by
        rw [hl, updateOne_append _ _ l1 l2 e hidf (by simp)]
      have hf2 : (l1 ++ { e with watchedAt := t1 } :: l2).find?
          (fun h => h.user == user && h.video == oid) = some { e with watchedAt := t1 } := by
        rw [List.find?_append, List.find?_eq_none.mpr (fun x hx => by simp [hq1 x hx])]
        simp only [Option.none_or]
        exact List.find?_cons_of_pos _ hq
      have hres : recordView
          { st with
            histories := updateOne (fun h => h._id == e._id)
              (fun h => { h with watchedAt := t1 }) st.histories }
          user (some vid) t2 n2 =
          ({ status := 200, headers := [], body := .history { e with watchedAt := t2 } },
           { st with histories := l1 ++ { e with watchedAt := t2 } :: l2 }) := by
        rw [recordView_update _ user vid oid t2 n2 { e with watchedAt := t1 } hne hc
          (by rw [hupd1]; exact hf2)]
        simp only [hupd1]
        rw [updateOne_append _ _ l1 l2 _ hidf (by simp)]
      rw [hres]
      simp only [Bool.and_eq_true, beq_iff_eq] at hq
      refine ⟨{ e with watchedAt := t2 }, hq.1, hq.2, rfl, ?_⟩
      show List.filter _ (l1 ++ _ :: l2) = _
      rw [List.filter_append, List.filter_eq_nil_iff.mpr (fun x hx => by simp [hq1 x hx]),
        List.filter_cons_of_pos (by simp [hq.1, hq.2]),
        List.filter_eq_nil_iff.mpr (fun x hx => by simp [hq2 x hx])]
      rfl
  · intro st0 st1 h0 hr
    unfold HistoryReachable at hr
    induction hr with
    | refl => rw [h0]; exact List.Pairwise.nil
    | tail _ hstep ih => exact uniqueHistory_step _ _ hstep ih

/-- C14, the scenario of the spec: user 7 records video 1 at time 100 and again
at time 200; the store then holds one record for the pair, watched at 200. -/
theorem recordView_upsert_witness :
    (recordView (recordView freshStore 7 (some "000000000000000000000001") 100 30).2 7
        (some "000000000000000000000001") 200 31).2.histories =
      [{ _id := 30, user := 7, video := 1, watchedAt := 200 }] ∧
    UniqueHistory watchedStore.histories := by
  have h := recordView_upsert freshStore 7 "000000000000000000000001" 1 100 200 30 31
    (by decide) (by decide) (by unfold UniqueHistoryIds; decide)
    (by unfold UniqueHistory; decide) (by decide)
  refine ⟨by decide, ?_⟩
  have hstep : HistoryStep freshStore watchedStore := by
    have hs := HistoryStep.record freshStore 7 (some "000000000000000000000001") 100 30
    have e : (recordView freshStore 7 (some "000000000000000000000001") 100 30).2 =
        watchedStore := by decide
    rw [e] at hs
    exact hs
  exact h.2 freshStore watchedStore rfl (Relation.ReflTransGen.single hstep)

/-! ## View counts -/

/-- C15: a stream request, with or without a `Range` header and whatever its
outcome, leaves the whole store as it was, so no video record changes; the
video-detail fetch `GET /:id` of an existing video raises that record's
`views` by exactly 1 and leaves its `likes`, `dislikes` and every other video
record as they were; and the other handlers embedded here (video reaction,
comment like, subscribe, unsubscribe, record view, delete comment) leave every
`views` counter as it was. -/
theorem views_change_only_on_detail (st : Store) (id : String)
    (range authorization : Option String) :
    (streamVideoStep st id range).2 = st ∧
    (∀ video, st.findVideoById id = some (some video) →
      ∃ v1 v2, st.videos = v1 ++ video :: v2 ∧
        (getVideo st id authorization).2.videos =
          v1 ++ { video with views := video.views + 1 } :: v2 ∧
        (getVideo st id authorization).1 =
          { status := 200, headers := []
            body := .video { video with views := video.views + 1 } none none }) ∧
    (∀ (user : ObjectId) (status : Option String) (newId : ObjectId),
      (likeVideo st user id status newId).2.videos.map Video.views =
        st.videos.map Video.views) ∧
    (∀ (user : ObjectId) (body : Option String) (now : Nat) (newId : ObjectId),
      (likeComment st user id body newId).2.videos = st.videos ∧
      (subscribe st user body newId).2.videos = st.videos ∧
      (unsubscribe st user id).2.videos = st.videos ∧
      (recordView st user body now newId).2.videos = st.videos ∧
      (deleteComment st user id).2.videos = st.videos) := by
  refine ⟨rfl, ?_, ?_, ?_⟩
  · intro video hv
    obtain ⟨oid, _, hf, hid⟩ := findVideoById_some st id video hv
    obtain ⟨v1, v2, hl, _, hno⟩ := find_split_first st.videos _ video hf
    refine ⟨v1, v2, hl, ?_, ?_⟩
    · unfold getVideo videosJwt
      rw [getVideoWith_none st id authorization video hv]
      show updateOne _ _ st.videos = _
      rw [hl, updateOne_append _ _ v1 v2 video (fun x hx => by simpa [hid] using hno x hx)
        (by simp)]
    · unfold getVideo videosJwt
      rw [getVideoWith_none st id authorization video hv]
  · intro user status newId
    exact likeVideo_views st user id status newId
  · intro user body now newId
    exact ⟨likeComment_videos st user id body newId, subscribe_videos st user body newId,
      unsubscribe_videos st user id, recordView_videos st user body now newId,
      deleteComment_videos st user id⟩

/-- C15 at a concrete input: streaming video 1 with a range leaves the store
as it is, and fetching its detail raises `views` from 0 to 1 with `likes` and
`dislikes` still 0. -/
theorem views_change_only_on_detail_witness :
    (streamVideoStep streamStore "000000000000000000000001" (some "bytes=0-99")).2 =
      streamStore ∧
    (getVideo streamStore "000000000000000000000001" none).2.videos =
      [{ sampleVideo 1 "a.mp4" 2 with views := 1 }] := by
  have h := views_change_only_on_detail streamStore "000000000000000000000001"
    (some "bytes=0-99") none
  refine ⟨h.1, ?_⟩
  obtain ⟨v1, v2, hl, hvid, _⟩ := h.2.1 (sampleVideo 1 "a.mp4" 2) (by decide)
  decide

/-! ## Upload intake -/

/-- C16: the file filter of the combined upload accepts a part exactly when its
field name is `video` and its type is one of the four video types, or its
field name is `thumbnail` and its type is one of the four image types; every
other part is rejected with an error, which is `Unexpected field` when the
field name is neither `video` nor `thumbnail`. -/
theorem uploadFileFilter_accepts_iff (fieldname mimetype : String) :
    (uploadFileFilter fieldname mimetype = .accept ↔
      (fieldname = "video" ∧
        (mimetype = "video/mp4" ∨ mimetype = "video/webm" ∨ mimetype = "video/ogg" ∨
          mimetype = "video/quicktime")) ∨
      (fieldname = "thumbnail" ∧
        (mimetype = "image/jpeg" ∨ mimetype = "image/png" ∨ mimetype = "image/gif" ∨
          mimetype = "image/webp"))) ∧
    (uploadFileFilter fieldname mimetype = .accept ∨
      ∃ message, uploadFileFilter fieldname mimetype = .reject message) ∧
    (fieldname ≠ "video" → fieldname ≠ "thumbnail" →
      uploadFileFilter fieldname mimetype = .reject "Unexpected field") := by
  have hvt : ("video" : String) ≠ "thumbnail" := by decide
  refine ⟨?_, ?_, ?_⟩
  · unfold uploadFileFilter videoFilter imageFilter
    by_cases hv : fieldname = "video"
    · subst hv
      simp only [if_true, true_and, hvt, false_and, or_false]
      split <;> simp_all
    · by_cases ht : fieldname = "thumbnail"
      · subst ht
        simp only [hv, if_false, if_true, false_and, false_or, true_and]
        split <;> simp_all
      · simp [hv, ht]
  · cases h : uploadFileFilter fieldname mimetype with
    | accept => exact Or.inl rfl
    | reject m => exact Or.inr ⟨m, rfl⟩
  · intro hv ht
    simp [uploadFileFilter, hv, ht]

/-- C16 at concrete inputs: an mp4 in field `video` and a png in field
`thumbnail` are accepted, a png in field `video` and any part in field
`avatar` are rejected. -/
theorem uploadFileFilter_accepts_iff_witness :
    uploadFileFilter "video" "video/mp4" = .accept ∧
    uploadFileFilter "thumbnail" "image/png" = .accept ∧
    uploadFileFilter "video" "image/png" =
      .reject "Invalid file type. Only video files are allowed." ∧
    uploadFileFilter "avatar" "image/png" = .reject "Unexpected field" :=
  ⟨(uploadFileFilter_accepts_iff "video" "video/mp4").1.mpr (Or.inl ⟨rfl, Or.inl rfl⟩),
   by decide, by decide,
   (uploadFileFilter_accepts_iff "avatar" "image/png").2.2 (by decide) (by decide)⟩

/-! ## Reaction status on the video detail -/

/-- C17, the code at the failing input: user 7 exists and has a `like` reaction
on video 1. With the identifier `jwt` bound to a verifier that accepts the
token, the handler's code attaches `isLiked = true`, `isDisliked = false`; as
the module stands `jwt` is unbound, the inner `catch` swallows the
`ReferenceError`, and the same request is answered with the plain record. -/
theorem getVideo_drops_reaction_status :
    (getVideoWith (some sampleJwt) viewerStore "000000000000000000000001"
        (some "Bearer token-of-user-7")).1.body =
      .video { sampleVideo 1 "a.mp4" 2 with likes := 1, views := 1 } (some true) (some false) ∧
    (getVideo viewerStore "000000000000000000000001" (some "Bearer token-of-user-7")).1 =
      { status := 200, headers := []
        body := .video { sampleVideo 1 "a.mp4" 2 with likes := 1, views := 1 } none none } := by
  decide

/-! ## Account deletion -/

/-- C18, the code at the failing input: the viewer (id 2) is subscribed to the
creator (id 1), whose `subscribersCount` is 1, the number of subscriptions
naming it. After the viewer's account is deleted no subscription names the
creator, yet its `subscribersCount` is still 1, not 0: the handler deletes the
subscriptions before it reads them to lower the counts. -/
theorem deleteAccount_keeps_creator_count :
    followStore.subscriptions = [{ _id := 20, subscriber := 2, creator := 1 }] ∧
    (deleteAccount followStore 2).1 = jsonMessage 200 "Account deleted successfully" ∧
    (deleteAccount followStore 2).2.subscriptions = [] ∧
    (deleteAccount followStore 2).2.users =
      [{ _id := 1, username := "creator", avatar := "", bio := "", subscribersCount := 1 }] := by
  decide

/-- C19, the code at the failing input: the viewer (id 2) has a comment, a
reaction and a history record. After the viewer's account is deleted the
viewer's video and subscription are gone, but the comment, the reaction and
the history record that reference user 2 are all still stored. -/
theorem deleteAccount_leaves_user_records :
    (deleteAccount followStore 2).1 = jsonMessage 200 "Account deleted successfully" ∧
    (deleteAccount followStore 2).2.videos = [{ sampleVideo 1 "a.mp4" 1 with likes := 1 }] ∧
    (deleteAccount followStore 2).2.subscriptions = [] ∧
    (deleteAccount followStore 2).2.comments =
      [{ _id := 5, video := 1, user := 2, content := "hi", likes := 0, edited := false,
         createdAt := 0 }] ∧
    (deleteAccount followStore 2).2.likes =
      [{ _id := 10, user := 2, video := some 1, comment := none, type := .like }] ∧
    (deleteAccount followStore 2).2.histories =
      [{ _id := 30, user := 2, video := 1, watchedAt := 100 }] := by
  decide

/-! ## Related videos -/

/-- C20: for an existing video the related-videos handler answers 200 with a
list of at most 10 videos, ordered by views descending. Every video in it is
another, non-private video that has the same category or the same creator when
the video's category is non-empty, and any other non-private video when the
category is empty. Every such video of the store is in the list, unless the
list is full with 10 videos of at least as many views. -/
theorem related_videos_query (st : Store) (id : String) (video : Video)
    (hv : st.findVideoById id = some (some video)) :
    ∃ result, getRelatedVideos st id =
        { status := 200, headers := [], body := .videos result } ∧
      result.length ≤ 10 ∧
      result.Pairwise (fun a b => b.views ≤ a.views) ∧
      (∀ w ∈ result, w ∈ st.videos ∧ w._id ≠ video._id ∧ w.isPrivate = false ∧
        (video.category ≠ "" → w.category = video.category ∨ w.creator = video.creator)) ∧
      (∀ w ∈ st.videos, w._id ≠ video._id → w.isPrivate = false →
        (video.category = "" ∨ w.category = video.category ∨ w.creator = video.creator) →
        w ∈ result ∨ (result.length = 10 ∧ ∀ r ∈ result, w.views ≤ r.views)) := by
  refine ⟨((st.videos.filter (relatedQuery video)).insertionSort byViewsDesc).take 10,
    ?_, List.length_take_le _ _, ?_, ?_, ?_⟩
  · unfold getRelatedVideos
    simp only [hv]
  · exact List.Pairwise.sublist (List.take_sublist _ _) (byViewsDesc_sorted _)
  · intro w hw
    have h1 := (List.mem_insertionSort byViewsDesc).mp (List.mem_of_mem_take hw)
    obtain ⟨hmem, hq⟩ := List.mem_filter.mp h1
    obtain ⟨hid, hpriv, hrel⟩ := (relatedQuery_iff video w).mp hq
    refine ⟨hmem, hid, hpriv, fun hne => ?_⟩
    rcases hrel with h | h
    · exact absurd h hne
    · exact h
  · intro w hw hid hpriv hrel
    have hq : relatedQuery video w = true := (relatedQuery_iff video w).mpr ⟨hid, hpriv, hrel⟩
    have hs : w ∈ (st.videos.filter (relatedQuery video)).insertionSort byViewsDesc :=
      (List.mem_insertionSort byViewsDesc).mpr (List.mem_filter.mpr ⟨hw, hq⟩)
    have hsorted := byViewsDesc_sorted (st.videos.filter (relatedQuery video))
    generalize (st.videos.filter (relatedQuery video)).insertionSort byViewsDesc = srt
      at hs hsorted ⊢
    rw [← List.take_append_drop 10 srt] at hs hsorted
    rcases List.mem_append.mp hs with h | h
    · exact Or.inl h
    · right
      have hlen : 10 < srt.length := by
        by_contra hle
        rw [List.drop_eq_nil_of_le (by omega)] at h
        simp at h
      refine ⟨by rw [List.length_take]; omega, ?_⟩
      intro r hr
      exact (List.pairwise_append.mp hsorted).2.2 r hr w h

/-- C20 at a concrete input: for video 1 (Music, creator 1) the handler returns
video 3 (same creator, 9 views) and then video 2 (same category, 5 views), and
leaves out video 4, which shares neither. -/
theorem related_videos_query_witness :
    getRelatedVideos relatedStore "000000000000000000000001" =
      { status := 200, headers := []
        body := .videos
          [{ sampleVideo 3 "c.mp4" 1 with category := "News", views := 9 },
           { sampleVideo 2 "b.mp4" 2 with category := "Music", views := 5 }] } := by
  obtain ⟨result, hres, _⟩ := related_videos_query relatedStore "000000000000000000000001"
    { sampleVideo 1 "a.mp4" 1 with category := "Music" } (by decide)
  decide

/-! ## Route dispatch -/

/-- C21, the code at the failing input: a `GET` request for `/subscriptions` on
the videos router is dispatched to the video-detail handler `/:id`, registered
before `/subscriptions`, with `id = "subscriptions"`; that handler fails to
cast the id and answers `500 Server error` in every store, for instance where
the feed handler would have answered with the video of the creator user 2
subscribes to. No request path at all reaches the feed handler, while each of
the other eight `GET` routes is reached by some path. -/
theorem subscriptions_route_shadowed :
    dispatchGet "/subscriptions" = some (.detail, [("id", "subscriptions")]) ∧
    (∀ (st : Store) (authorization : Option String),
      getVideo st "subscriptions" authorization = (serverError, st)) ∧
    getSubscriptionVideos followStore 2 =
      { status := 200, headers := []
        body := .videos [{ sampleVideo 1 "a.mp4" 1 with likes := 1 }] } ∧
    (∀ (path : String) (params : List (String × String)),
      dispatchGet path ≠ some (.subscriptions, params)) ∧
    (dispatchGet "/" = some (.list, []) ∧
      dispatchGet "/507f1f77bcf86cd799439011" =
        some (.detail, [("id", "507f1f77bcf86cd799439011")]) ∧
      dispatchGet "/507f1f77bcf86cd799439011/stream" =
        some (.stream, [("id", "507f1f77bcf86cd799439011")]) ∧
      dispatchGet "/507f1f77bcf86cd799439011/thumbnail" =
        some (.thumbnail, [("id", "507f1f77bcf86cd799439011")]) ∧
      dispatchGet "/507f1f77bcf86cd799439011/like/status" =
        some (.likeStatus, [("id", "507f1f77bcf86cd799439011")]) ∧
      dispatchGet "/user/507f1f77bcf86cd799439011" =
        some (.userVideos, [("userId", "507f1f77bcf86cd799439011")]) ∧
      dispatchGet "/related/507f1f77bcf86cd799439011" =
        some (.related, [("id", "507f1f77bcf86cd799439011")]) ∧
      dispatchGet "/507f1f77bcf86cd799439011/comments" =
        some (.comments, [("id", "507f1f77bcf86cd799439011")])) := by
  refine ⟨by decide, ?_, by decide, dispatchGet_never_subscriptions,
    by decide, by decide, by decide, by decide, by decide, by decide, by decide, by decide⟩
  intro st authorization
  have hcast : st.findVideoById "subscriptions" = none := by
    unfold Store.findVideoById
    have : castObjectId "subscriptions" = none := by decide
    rw [this]
    rfl
  unfold getVideo getVideoWith
  simp only [hcast]

end VideoBackend
